import Mathlib

/-!
# Shallow embedding of the ISO 7816 T=1 protocol engine

This file embeds, in Lean 4, the C sources
`usermods/scard/t1_protocol/t1_protocol.c` and
`usermods/scard/t1_protocol/fifo_buf.h` of the `f469-disco` repository and
proves (or refutes) the properties of the natural-language specification
about them.

Modelling conventions:
* machine integers (`uint8_t`, `uint16_t`, `uint32_t`, `size_t`) are `Nat`
  with explicit `% 2^w` at the points where the C code can wrap or truncate;
  the `int16_t`/`int32_t` values that can be negative (`rx_expected_bytes`,
  S-block `inf_byte`, interface bytes initialised to `-1`) are `Int`;
* byte buffers are `List Nat` of values `< 256`;
* the transmit FIFO ring of the engine is modelled as the queue of whole
  stored blocks together with the exact byte counts (4-byte `block_hdr_t`
  plus `block_hdr_t.size` payload bytes) used for the capacity checks —
  the C engine only ever pushes, reads and removes whole blocks through
  their headers, so the queue view is equivalent to the byte ring.  The
  byte-level ring of `fifo_buf.h` is modelled separately (as `FifoBuf`)
  for the claims that are about it;
* the two user callbacks (`cb_serial_out`, `cb_handle_event`) are modelled
  by an oracle `Env` giving the success of each successive serial-out call,
  an output trace recording the bytes handed to `cb_serial_out`, and a list
  of events delivered to `cb_handle_event`; event parameter pointers
  (`prm`) are not modelled, events are identified by their code.
-/

namespace T1

/-! ## Constants from t1_protocol.c / t1_protocol.h / t1_protocol_defs.h -/

def TX_NAD_VALUE : Nat := 0x00
def PCB_MARKER_MASK : Nat := 0xC0
def IB_NS_BIT : Nat := 0x40
def IB_M_BIT : Nat := 0x20
def RB_MARKER : Nat := 0x80
def RB_NS_BIT : Nat := 0x10
def RB_ACK_MASK : Nat := 0x0F
def SB_MARKER : Nat := 0xC0
def SB_RESP_BIT : Nat := 0x20
def SB_CMD_MASK : Nat := 0x1F
def MAX_EDC_LEN : Nat := 2
def prologue_size : Nat := 3
/-- `sizeof(block_hdr_t)`: four 0-15-bit bitfields in one `unsigned int`. -/
def block_hdr_bytes : Nat := 4
def T1_MAX_APDU_SIZE : Nat := 255
def MAX_IBLOCK_SIZE : Nat := T1_MAX_APDU_SIZE + (prologue_size + MAX_EDC_LEN)
def T1_TX_FIFO_SIZE : Nat := 1024
def T1_MAX_LEN_VALUE : Nat := 254
def T1_RX_BUF_SIZE : Nat := 3 + T1_MAX_LEN_VALUE + 2
def ATR_MIN_BYTES : Nat := 2
def TS_CONVENTION_DIRECT : Nat := 0x3B
def TS_CONVENTION_INVERSE : Nat := 0x3F
def LRC_SIZE : Nat := 1
def CRC_SIZE : Nat := 2
def DELIVERY_ATTEMPTS : Nat := 10
def RESYNC_ATTEMPTS : Nat := 3
def IFS_MIN : Nat := 1
def IFS_MAX : Nat := 254
def PPSS : Nat := 0xFF
def MAX_EVENTS : Nat := 3
def CCID_CLASS_AUTO_PPS_CUR : Nat := 0x00000080

/-! ## EDC codec (calc_lrc / calc_crc of t1_protocol.c)

The C functions take a NULL-terminated gather list of `(buf, len)` pairs;
it is modelled as a `List (List Nat)`.  The destination buffer is modelled
by returning the list of bytes written (`[]` when the C function would
write nothing and return 0). -/

/-- The 256-entry CRC table `crc_tbl` of t1_protocol.c, verbatim. -/
def crc_tbl : List Nat := [
  0x0000, 0x1189, 0x2312, 0x329B, 0x4624, 0x57AD, 0x6536, 0x74BF,
  0x8C48, 0x9DC1, 0xAF5A, 0xBED3, 0xCA6C, 0xDBE5, 0xE97E, 0xF8F7,
  0x1081, 0x0108, 0x3393, 0x221A, 0x56A5, 0x472C, 0x75B7, 0x643E,
  0x9CC9, 0x8D40, 0xBFDB, 0xAE52, 0xDAED, 0xCB64, 0xF9FF, 0xE876,
  0x2102, 0x308B, 0x0210, 0x1399, 0x6726, 0x76AF, 0x4434, 0x55BD,
  0xAD4A, 0xBCC3, 0x8E58, 0x9FD1, 0xEB6E, 0xFAE7, 0xC87C, 0xD9F5,
  0x3183, 0x200A, 0x1291, 0x0318, 0x77A7, 0x662E, 0x54B5, 0x453C,
  0xBDCB, 0xAC42, 0x9ED9, 0x8F50, 0xFBEF, 0xEA66, 0xD8FD, 0xC974,
  0x4204, 0x538D, 0x6116, 0x709F, 0x0420, 0x15A9, 0x2732, 0x36BB,
  0xCE4C, 0xDFC5, 0xED5E, 0xFCD7, 0x8868, 0x99E1, 0xAB7A, 0xBAF3,
  0x5285, 0x430C, 0x7197, 0x601E, 0x14A1, 0x0528, 0x37B3, 0x263A,
  0xDECD, 0xCF44, 0xFDDF, 0xEC56, 0x98E9, 0x8960, 0xBBFB, 0xAA72,
  0x6306, 0x728F, 0x4014, 0x519D, 0x2522, 0x34AB, 0x0630, 0x17B9,
  0xEF4E, 0xFEC7, 0xCC5C, 0xDDD5, 0xA96A, 0xB8E3, 0x8A78, 0x9BF1,
  0x7387, 0x620E, 0x5095, 0x411C, 0x35A3, 0x242A, 0x16B1, 0x0738,
  0xFFCF, 0xEE46, 0xDCDD, 0xCD54, 0xB9EB, 0xA862, 0x9AF9, 0x8B70,
  0x8408, 0x9581, 0xA71A, 0xB693, 0xC22C, 0xD3A5, 0xE13E, 0xF0B7,
  0x0840, 0x19C9, 0x2B52, 0x3ADB, 0x4E64, 0x5FED, 0x6D76, 0x7CFF,
  0x9489, 0x8500, 0xB79B, 0xA612, 0xD2AD, 0xC324, 0xF1BF, 0xE036,
  0x18C1, 0x0948, 0x3BD3, 0x2A5A, 0x5EE5, 0x4F6C, 0x7DF7, 0x6C7E,
  0xA50A, 0xB483, 0x8618, 0x9791, 0xE32E, 0xF2A7, 0xC03C, 0xD1B5,
  0x2942, 0x38CB, 0x0A50, 0x1BD9, 0x6F66, 0x7EEF, 0x4C74, 0x5DFD,
  0xB58B, 0xA402, 0x9699, 0x8710, 0xF3AF, 0xE226, 0xD0BD, 0xC134,
  0x39C3, 0x284A, 0x1AD1, 0x0B58, 0x7FE7, 0x6E6E, 0x5CF5, 0x4D7C,
  0xC60C, 0xD785, 0xE51E, 0xF497, 0x8028, 0x91A1, 0xA33A, 0xB2B3,
  0x4A44, 0x5BCD, 0x6956, 0x78DF, 0x0C60, 0x1DE9, 0x2F72, 0x3EFB,
  0xD68D, 0xC704, 0xF59F, 0xE416, 0x90A9, 0x8120, 0xB3BB, 0xA232,
  0x5AC5, 0x4B4C, 0x79D7, 0x685E, 0x1CE1, 0x0D68, 0x3FF3, 0x2E7A,
  0xE70E, 0xF687, 0xC41C, 0xD595, 0xA12A, 0xB0A3, 0x8238, 0x93B1,
  0x6B46, 0x7ACF, 0x4854, 0x59DD, 0x2D62, 0x3CEB, 0x0E70, 0x1FF9,
  0xF78F, 0xE606, 0xD49D, 0xC514, 0xB1AB, 0xA022, 0x92B9, 0x8330,
  0x7BC7, 0x6A4E, 0x58D5, 0x495C, 0x3DE3, 0x2C6A, 0x1EF1, 0x0F78]

/-- Accumulated LRC value: the inner `lrc ^= *p_src++` loops of `calc_lrc`. -/
def calc_lrc_val (buf_list : List (List Nat)) : Nat :=
  buf_list.foldl (fun acc bs => bs.foldl (fun lrc b => lrc ^^^ b) acc) 0

/-- `calc_lrc`: the bytes written to `dst` (one LRC byte when `dst_len >= 1`). -/
def calc_lrc (buf_list : List (List Nat)) (dst_len : Nat) : List Nat :=
  if LRC_SIZE ≤ dst_len then [calc_lrc_val buf_list] else []

/-- One step of the table-driven CRC loop:
`crc = ((crc >> 8) & 0xFF) ^ crc_tbl[(crc ^ *p_src++) & 0xFF]`. -/
def crc_step (crc b : Nat) : Nat :=
  ((crc / 256) % 256) ^^^ crc_tbl.getD ((crc ^^^ b) % 256) 0

/-- Accumulated CRC value of `calc_crc` (seed 0xFFFF). -/
def calc_crc_val (buf_list : List (List Nat)) : Nat :=
  buf_list.foldl (fun acc bs => bs.foldl crc_step acc) 0xFFFF

/-- `calc_crc`: the bytes written to `dst`
(`dst[0] = (crc >> 8) & 0xFF; dst[1] = crc & 0xFF` when `dst_len >= 2`). -/
def calc_crc (buf_list : List (List Nat)) (dst_len : Nat) : List Nat :=
  if CRC_SIZE ≤ dst_len then
    [(calc_crc_val buf_list / 256) % 256, calc_crc_val buf_list % 256]
  else []

/-! ### Reference definitions for claim C8 (from the spec's words) -/

/-- Reference XOR-reduction of a byte list (spec: `xor_reduce`). -/
def xor_reduce (bs : List Nat) : Nat := bs.foldl (fun a b => a ^^^ b) 0

/-- One bit of the reference (bit-by-bit, LSB-first) CRC-CCITT:
shift right, conditionally xor the reflected polynomial 0x8408. -/
def crc_bit_step (c : Nat) : Nat :=
  if c % 2 = 1 then (c / 2) ^^^ 0x8408 else c / 2

/-- Reference byte update of CRC-CCITT in reflected (LSB-first) form. -/
def crc_ref_byte (c b : Nat) : Nat := crc_bit_step^[8] (c ^^^ b)

/-- Reference CRC-CCITT over a byte string: reflected polynomial
(0x8408, i.e. 0x1021 bit-reversed), seed 0xFFFF, no final xor. -/
def crc_ref (bs : List Nat) : Nat := bs.foldl crc_ref_byte 0xFFFF

/-! ### Proof that the table-driven CRC equals the bit-level reference -/

set_option maxRecDepth 4000

theorem crc_tbl_entry : ∀ i < 256, crc_tbl.getD i 0 = crc_bit_step^[8] i := by decide

theorem crc_tbl_lt : ∀ i < 256, crc_tbl.getD i 0 < 2^16 := by decide

theorem crc_bit8_high : ∀ h < 256, crc_bit_step^[8] (h * 256) = h := by decide

theorem xor_div_two_pow (a b k : Nat) : (a ^^^ b) / 2^k = a / 2^k ^^^ b / 2^k := by
  apply Nat.eq_of_testBit_eq
  intro i
  have h : ∀ x : Nat, (x / 2^k).testBit i = x.testBit (i + k) := by
    intro x
    rw [← Nat.shiftRight_eq_div_pow, Nat.testBit_shiftRight, Nat.add_comm]
  rw [h, Nat.testBit_xor, Nat.testBit_xor, h, h]

theorem xor_mod_two (a b : Nat) : (a ^^^ b) % 2 = (a % 2 + b % 2) % 2 := by
  have ha := Nat.mod_two_eq_zero_or_one a
  have hb := Nat.mod_two_eq_zero_or_one b
  have h := Nat.testBit_xor a b 0
  simp only [Nat.testBit_zero] at h
  rcases ha with ha | ha <;> rcases hb with hb | hb <;>
    simp [ha, hb] at h ⊢ <;> omega

theorem xor_right_comm (x y z : Nat) : x ^^^ y ^^^ z = x ^^^ z ^^^ y := by
  rw [Nat.xor_assoc, Nat.xor_comm y z, ← Nat.xor_assoc]

theorem xor_xor_cancel (x y p : Nat) : (x ^^^ p) ^^^ (y ^^^ p) = x ^^^ y := by
  rw [Nat.xor_assoc, Nat.xor_comm y p, ← Nat.xor_assoc p p y, Nat.xor_self, Nat.zero_xor]

theorem crc_bit_step_linear (a b : Nat) :
    crc_bit_step (a ^^^ b) = crc_bit_step a ^^^ crc_bit_step b := by
  unfold crc_bit_step
  have hm := xor_mod_two a b
  have hd := xor_div_two_pow a b 1
  simp only [pow_one] at hd
  have ha := Nat.mod_two_eq_zero_or_one a
  have hb := Nat.mod_two_eq_zero_or_one b
  rcases ha with ha | ha <;> rcases hb with hb | hb
  · simp only [ha, hb, hm, hd]
    norm_num
  · simp only [ha, hb, hm, hd]
    norm_num
    exact Nat.xor_assoc _ _ _
  · simp only [ha, hb, hm, hd]
    norm_num
    exact xor_right_comm _ _ _
  · simp only [ha, hb, hm, hd]
    norm_num
    exact (xor_xor_cancel _ _ _).symm

theorem crc_bit8_linear (a b : Nat) :
    crc_bit_step^[8] (a ^^^ b) = crc_bit_step^[8] a ^^^ crc_bit_step^[8] b := by
  have h : ∀ k a b, crc_bit_step^[k] (a ^^^ b) =
      crc_bit_step^[k] a ^^^ crc_bit_step^[k] b := by
    intro k
    induction k with
    | zero => intro a b; rfl
    | succ k ih =>
      intro a b
      rw [Function.iterate_succ_apply, Function.iterate_succ_apply,
        Function.iterate_succ_apply, crc_bit_step_linear, ih]
  exact h 8 a b

theorem mod_pow_xor_high (x k : Nat) : x ^^^ x % 2^k = (x / 2^k) * 2^k := by
  have hmul : (x / 2^k) * 2^k = (x >>> k) <<< k := by
    rw [Nat.shiftRight_eq_div_pow, Nat.shiftLeft_eq]
  apply Nat.eq_of_testBit_eq
  intro i
  rw [Nat.testBit_xor, Nat.testBit_mod_two_pow, hmul, Nat.testBit_shiftLeft,
    Nat.testBit_shiftRight]
  rcases Nat.lt_or_ge i k with h | h
  · have h1 : ¬ k ≤ i := Nat.not_le.mpr h
    simp [h, h1]
  · have h1 : ¬ i < k := Nat.not_lt.mpr h
    simp [h1, Nat.le_of_not_lt, h, Nat.add_sub_cancel' h]

theorem split_xor (x k : Nat) : x = (x / 2^k) * 2^k ^^^ x % 2^k := by
  conv_lhs => rw [← Nat.xor_zero x, ← Nat.xor_self (x % 2^k), ← Nat.xor_assoc]
  rw [mod_pow_xor_high]

theorem crc_bit8_split (x : Nat) (hx : x < 2^16) :
    crc_bit_step^[8] x = (x / 256) ^^^ crc_tbl.getD (x % 256) 0 := by
  have h256 : (256 : Nat) = 2^8 := by norm_num
  have hhi : x / 256 < 256 := by omega
  have hlo : x % 256 < 256 := Nat.mod_lt _ (by norm_num)
  conv_lhs => rw [split_xor x 8]
  rw [crc_bit8_linear, ← h256, crc_bit8_high _ hhi, crc_tbl_entry _ hlo]

theorem crc_step_eq_ref (c b : Nat) (hc : c < 2^16) (hb : b < 256) :
    crc_step c b = crc_ref_byte c b := by
  have hb16 : b < 2^16 := by omega
  have hx : c ^^^ b < 2^16 := Nat.xor_lt_two_pow hc hb16
  have h256 : (256 : Nat) = 2^8 := by norm_num
  have hdiv : (c ^^^ b) / 256 = c / 256 := by
    rw [h256, xor_div_two_pow, ← h256, Nat.div_eq_of_lt hb, Nat.xor_zero]
  have hmod : c / 256 % 256 = c / 256 := Nat.mod_eq_of_lt (by omega)
  rw [crc_step, crc_ref_byte, crc_bit8_split _ hx, hdiv, hmod]

theorem crc_step_lt (c b : Nat) : crc_step c b < 2^16 := by
  have hidx : (c ^^^ b) % 256 < 256 := Nat.mod_lt _ (by norm_num)
  have h1 : c / 256 % 256 < 2^16 := lt_trans (Nat.mod_lt _ (by norm_num)) (by norm_num)
  exact Nat.xor_lt_two_pow h1 (crc_tbl_lt _ hidx)

theorem foldl_crc_step_eq_ref (bs : List Nat) :
    ∀ c, c < 2^16 → (∀ b ∈ bs, b < 256) →
      bs.foldl crc_step c = bs.foldl crc_ref_byte c := by
  induction bs with
  | nil => intro c _ _; rfl
  | cons b bs ih =>
    intro c hc hbs
    have hb : b < 256 := hbs b (List.mem_cons_self ..)
    simp only [List.foldl_cons]
    rw [crc_step_eq_ref c b hc hb, ← crc_step_eq_ref c b hc hb]
    exact ih _ (crc_step_lt c b) (fun x hx => hbs x (List.mem_cons_of_mem _ hx))

/-- **C8.** The LRC error-detection code is the XOR of all input bytes
(one output byte), and the CRC error-detection code — computed via the
256-entry table seeded with 0xFFFF and emitted as two bytes big-endian —
matches the reference bit-level CRC-CCITT (reflected polynomial, seed
0xFFFF) on every input gather list of bytes. -/
theorem C8_edc_codes :
    (∀ buf_list : List (List Nat),
      calc_lrc buf_list LRC_SIZE = [xor_reduce buf_list.flatten]) ∧
    (∀ buf_list : List (List Nat), (∀ b ∈ buf_list.flatten, b < 256) →
      calc_crc buf_list CRC_SIZE =
        [crc_ref buf_list.flatten / 256 % 256, crc_ref buf_list.flatten % 256]) := by
  constructor
  · intro L
    rw [calc_lrc, if_pos (le_refl _), calc_lrc_val, xor_reduce, List.foldl_flatten]
  · intro L hL
    have hval : calc_crc_val L = crc_ref L.flatten := by
      rw [calc_crc_val, crc_ref, ← List.foldl_flatten,
        foldl_crc_step_eq_ref _ _ (by norm_num) hL]
    rw [calc_crc, if_pos (le_refl _), hval]

/-- Witness for C8 at a concrete gather list. -/
theorem C8_edc_codes_witness :
    calc_lrc [[0x12], [0x34, 0x56]] LRC_SIZE = [xor_reduce [0x12, 0x34, 0x56]] ∧
    calc_crc [[0x12], [0x34, 0x56]] CRC_SIZE =
      [crc_ref [0x12, 0x34, 0x56] / 256 % 256, crc_ref [0x12, 0x34, 0x56] % 256] :=
  ⟨C8_edc_codes.1 [[0x12], [0x34, 0x56]],
   C8_edc_codes.2 [[0x12], [0x34, 0x56]] (by decide)⟩

/-! ## Byte-level FIFO ring (fifo_buf.h)

`fifo_buf_inst_t` with its `buf`, `head`, `tail`, `nelem` fields and the
operations `fifo_init`, `fifo_clear`, `fifo_nfree`, `fifo_nused`,
`fifo_push`, `fifo_pop`, `fifo_read` and `fifo_remove`.  `fifo_read` uses a
caller-held cursor and does not change the FIFO state. -/

structure FifoBuf where
  buf : List Nat
  head : Nat
  tail : Nat
  nelem : Nat

namespace FifoBuf

/-- `fifo_init`: contents of the memory buffer are "don't-care" (zeros here). -/
def init (nelem : Nat) : FifoBuf :=
  { buf := List.replicate nelem 0, head := 0, tail := 0, nelem := nelem }

/-- `fifo_clear`. -/
def clear (f : FifoBuf) : FifoBuf := { f with head := 0, tail := 0 }

/-- `fifo_nfree`. -/
def nfree (f : FifoBuf) : Nat :=
  if f.head ≥ f.tail then f.nelem - f.head + f.tail - 1 else f.tail - f.head - 1

/-- `fifo_nused`. -/
def nused (f : FifoBuf) : Nat :=
  if f.head ≥ f.tail then f.head - f.tail else f.nelem - f.tail + f.head

/-- `fifo_push`. -/
def push (f : FifoBuf) (byte : Nat) : FifoBuf :=
  { f with buf := f.buf.set f.head byte,
           head := if f.head ≥ f.nelem - 1 then 0 else f.head + 1 }

/-- `fifo_pop`: returns the byte and the new state. -/
def pop (f : FifoBuf) : Nat × FifoBuf :=
  (f.buf.getD f.tail 0,
   { f with tail := if f.tail ≥ f.nelem - 1 then 0 else f.tail + 1 })

/-- `fifo_read`: returns the byte at the cursor and the advanced cursor;
the FIFO state itself is untouched. -/
def read (f : FifoBuf) (read_idx : Nat) : Nat × Nat :=
  (f.buf.getD read_idx 0,
   if read_idx ≥ f.nelem - 1 then 0 else read_idx + 1)

/-- `fifo_remove`: `tail += nbytes; if(tail >= nelem) tail %= nelem;`
(for the in-range states reached by the engine this is the modulus). -/
def remove (f : FifoBuf) (nbytes : Nat) : FifoBuf :=
  { f with tail :=
      if f.tail + nbytes ≥ f.nelem then (f.tail + nbytes) % f.nelem
      else f.tail + nbytes }

/-- FIFO states reachable from an initialized FIFO by operations that
respect the caller size-check discipline of t1_protocol.c (a byte is
pushed only into free space, popped or removed only from used space). -/
inductive Reachable : FifoBuf → Prop
  | init (nelem : Nat) (h : 0 < nelem) : Reachable (init nelem)
  | clear (f : FifoBuf) : Reachable f → Reachable (clear f)
  | push (f : FifoBuf) (b : Nat) : Reachable f → 1 ≤ nfree f → Reachable (push f b)
  | pop (f : FifoBuf) : Reachable f → 1 ≤ nused f → Reachable (pop f).2
  | remove (f : FifoBuf) (n : Nat) : Reachable f → n ≤ nused f → Reachable (remove f n)

theorem reachable_valid (f : FifoBuf) (h : Reachable f) :
    0 < f.nelem ∧ f.head < f.nelem ∧ f.tail < f.nelem := by
  induction h with
  | init nelem h => exact ⟨h, h, h⟩
  | clear f _ ih => exact ⟨ih.1, ih.1, ih.1⟩
  | push f b _ _ ih =>
    refine ⟨ih.1, ?_, ih.2.2⟩
    simp only [push]
    split <;> omega
  | pop f _ _ ih =>
    refine ⟨ih.1, ih.2.1, ?_⟩
    simp only [pop]
    split <;> omega
  | remove f n _ _ ih =>
    refine ⟨ih.1, ih.2.1, ?_⟩
    simp only [remove]
    split
    · exact Nat.mod_lt _ ih.1
    · omega

/-- **C9.** For every reachable FIFO state, `free + used + 1 = capacity`:
one slot of the underlying array is permanently reserved to disambiguate
full from empty. -/
theorem C9_fifo_one_slot_reserved (f : FifoBuf) (h : Reachable f) :
    nfree f + nused f + 1 = f.nelem := by
  obtain ⟨h1, h2, h3⟩ := reachable_valid f h
  rw [nfree, nused]
  rcases Nat.lt_or_ge f.head f.tail with hlt | hge
  · rw [if_neg (by omega), if_neg (by omega)]
    omega
  · rw [if_pos (by omega), if_pos (by omega)]
    omega

/-- Witness for C9: an initialized FIFO of capacity 8, one byte pushed. -/
theorem C9_fifo_one_slot_reserved_witness :
    nfree (push (init 8) 0xAB) + nused (push (init 8) 0xAB) + 1 = 8 :=
  C9_fifo_one_slot_reserved _
    (Reachable.push _ 0xAB (Reachable.init 8 (by decide)) (by decide))

end FifoBuf

/-! ## Timers (timer_elapsed of t1_protocol.c)

Timer variables are `uint32_t`, kept as `Nat < 2^32`.  The C expression
`*p_timer & 0x7FFFFFFF` is `timer % 2^31`, the marker test
`*p_timer & 0x80000000` is `2^31 ≤ timer`, and `time | 0x80000000` is
`time + 2^31` (the value `time` is always `< 2^31` at that point). -/

/-- `timer_elapsed`: returns (elapsed?, new timer value). -/
def timer_elapsed (timer elapsed_ms : Nat) : Bool × Nat :=
  if timer ≠ 0 then
    let time := timer % 2^31
    let time := time - min elapsed_ms time
    if time = 0 ∧ 2^31 ≤ timer then (true, 0)
    else (false, time + 2^31)
  else (false, timer)

/-- **C7.** A timer freshly armed with `t ∈ [1, 0x7FFFFFFF]` never reports
elapsed on the first `timer_elapsed` call, whatever `elapsed_ms` is; and
`timer_elapsed` can return `true` only on a timer value carrying the
"already decremented once" marker bit (which no freshly armed value has)
and only when the remaining time is exhausted by `elapsed_ms`. -/
theorem C7_timer_first_tick_guard :
    (∀ t elapsed_ms : Nat, 1 ≤ t → t ≤ 0x7FFFFFFF →
      (timer_elapsed t elapsed_ms).1 = false) ∧
    (∀ s elapsed_ms : Nat, (timer_elapsed s elapsed_ms).1 = true →
      2^31 ≤ s ∧ s % 2^31 ≤ elapsed_ms) := by
  constructor
  · intro t e h1 h2
    rw [timer_elapsed]
    have ht : t ≠ 0 := by omega
    rw [if_pos ht]
    have hmark : ¬ (2^31 ≤ t) := by
      norm_num at h2 ⊢
      omega
    simp only [hmark, and_false, if_false]
  · intro s e h
    rw [timer_elapsed] at h
    by_cases hs : s ≠ 0
    · rw [if_pos hs] at h
      by_cases hc : s % 2^31 - min e (s % 2^31) = 0 ∧ 2^31 ≤ s
      · refine ⟨hc.2, ?_⟩
        have := hc.1
        have hlt : s % 2^31 < 2^31 := Nat.mod_lt _ (by norm_num)
        omega
      · rw [if_neg hc] at h
        simp at h
    · rw [if_neg hs] at h
      simp at h

/-- Witness for C7: a fresh 5 ms timer survives a 100 ms first tick, and a
marked expired timer value satisfies the only-if conditions. -/
theorem C7_timer_first_tick_guard_witness :
    (timer_elapsed 5 100).1 = false ∧ (2^31 ≤ 2^31 + 7 ∧ (2^31 + 7) % 2^31 ≤ 9) :=
  ⟨C7_timer_first_tick_guard.1 5 100 (by decide) (by decide),
   C7_timer_first_tick_guard.2 (2^31 + 7) 9 (by decide)⟩

/-! ## Events (event_t, event_list_t, event_add of t1_protocol.c)

Events are identified by their code; the C numeric values are kept so that
`is_error` (`code >= t1_ev_err_internal`) is faithful.  The `prm` pointer
payloads are not modelled. -/

inductive EvCode
  | ev_none
  | atr_received
  | connect
  | apdu_received
  | err_internal
  | err_serial_out
  | err_comm_failure
  | err_atr_timeout
  | err_bad_atr
  | err_incompatible
  | err_oversized_apdu
  | err_sc_abort
  | pps_failed
  | pps_exchange_done
  deriving DecidableEq, Repr

/-- The numeric values of `t1_ev_code_t` (t1_protocol.h): errors start
at 100, and `t1_ev_pps_failed` sits after the error codes. -/
def EvCode.val : EvCode → Nat
  | .ev_none => 0
  | .atr_received => 1
  | .connect => 2
  | .apdu_received => 3
  | .err_internal => 100
  | .err_serial_out => 101
  | .err_comm_failure => 102
  | .err_atr_timeout => 103
  | .err_bad_atr => 104
  | .err_incompatible => 105
  | .err_oversized_apdu => 106
  | .err_sc_abort => 107
  | .pps_failed => 108
  | .pps_exchange_done => 109

structure Event where
  code : EvCode
  deriving DecidableEq, Repr

/-- `is_error`: `event.code >= t1_ev_err_internal`. -/
def is_error (e : Event) : Bool := 100 ≤ e.code.val

/-- `event(ev_code)`. -/
def event (c : EvCode) : Event := { code := c }

/-- `event_ext(ev_code, ev_prm)`: the parameter pointer is not modelled. -/
def event_ext (c : EvCode) : Event := { code := c }

/-- `event_none`. -/
def event_none : Event := { code := .ev_none }

/-- `event_add`: appends, except that on a full list the last slot is
overwritten with an internal-error event. -/
def event_add (l : List Event) (event_in : Event) : List Event :=
  if event_in.code ≠ .ev_none then
    if l.length ≥ MAX_EVENTS then
      l.take (MAX_EVENTS - 1) ++ [event .err_internal]
    else l ++ [event_in]
  else l

/-- **C10.** The event list of a single API entry never holds more than 3
events: `event_add` preserves `length ≤ 3`, and when a fourth (or later)
event would be added it replaces the last queued event with an
internal-error event, preserving the earlier-queued events and dropping
the overflowing one. -/
theorem C10_event_list_bound :
    (∀ l e, l.length ≤ MAX_EVENTS → (event_add l e).length ≤ MAX_EVENTS) ∧
    (∀ l e, MAX_EVENTS ≤ l.length → e.code ≠ .ev_none →
      event_add l e = l.take (MAX_EVENTS - 1) ++ [event .err_internal]) := by
  constructor
  · intro l e h
    rw [event_add]
    split
    · split
      · simp [MAX_EVENTS]
      · simp only [List.length_append, List.length_cons, List.length_nil]
        omega
    · exact h
  · intro l e h he
    rw [event_add, if_pos he, if_pos (by omega)]

/-- Witness for C10 on a full 3-event list. -/
theorem C10_event_list_bound_witness :
    (event_add [event .connect, event .connect, event .connect]
        (event .atr_received)).length ≤ MAX_EVENTS ∧
    event_add [event .connect, event .connect, event .connect]
        (event .atr_received) =
      [event .connect, event .connect, event .err_internal] :=
  ⟨C10_event_list_bound.1 _ (event .atr_received) (by decide),
   C10_event_list_bound.2 [event .connect, event .connect, event .connect]
     (event .atr_received) (by decide) (by decide)⟩

/-! ## Configuration

The configuration vector `int32_t config[t1_config_size]` and its
`ext_config` defaults (the `.c` file's 12-entry version, which is the one
its code indexes).  All stored values are non-negative, so `Nat` is used. -/

def atr_prot_t0 : Nat := 0
def atr_prot_t1 : Nat := 1
def atr_globals : Nat := 15

structure T1Config where
  tm_interbyte : Nat
  tm_atr : Nat
  tm_response : Nat
  tm_response_max : Nat
  use_crc : Nat
  ifsc : Nat
  ifsd : Nat
  dw_fetures : Nat
  pps_size : Nat
  ta1_value : Nat
  is_usb_reader : Nat
  rx_skip_bytes : Nat
  deriving DecidableEq, Repr

/-- The `.def` column of `ext_config`. -/
def default_config : T1Config :=
  { tm_interbyte := 200, tm_atr := 1000, tm_response := 2000,
    tm_response_max := 4000, use_crc := 0, ifsc := 32, ifsd := IFS_MAX,
    dw_fetures := 0, pps_size := 3, ta1_value := 0x11, is_usb_reader := 0,
    rx_skip_bytes := 0 }

/-! ## PPS response validation (check_pps_response / check_usb_pps_response)

The two C functions are transcribed with C operator precedence: `==` binds
tighter than `^` and `|`, so `0U == buf[a] ^ buf[b] ^ buf[c]` is
`((0U == buf[a]) ^ buf[b]) ^ buf[c]` and `atr_prot_t1 | 0x10 == buf[x]`
is `atr_prot_t1 | (0x10 == buf[x])`.  A C comparison yields 1 or 0 and a
condition is "true" when nonzero. -/

/-- `pps_size` of the `pps_*` field enum (serial PPS response, 3 bytes). -/
def pps_size_val : Nat := 3
/-- `usb_pps_size` of the `usb_pps_*` field enum (USB PPS response, 4 bytes). -/
def usb_pps_size_val : Nat := 4

/-- `check_pps_response`, transcribed with C operator precedence. -/
def check_pps_response (_cfg : T1Config) (buf : List Nat) (size : Nat) : Bool :=
  (pps_size_val == size) && (PPSS == buf.getD 0 0) &&
  (atr_prot_t1 == buf.getD 1 0) &&
  ((((if (0 : Nat) == buf.getD 0 0 then (1 : Nat) else 0) ^^^ buf.getD 1 0) ^^^
      buf.getD 2 0) != 0)

/-- `check_usb_pps_response`, transcribed with C operator precedence. -/
def check_usb_pps_response (cfg : T1Config) (buf : List Nat) (size : Nat) : Bool :=
  (usb_pps_size_val == size) && (PPSS == buf.getD 0 0) &&
  ((atr_prot_t1 ||| (if (0x10 : Nat) == buf.getD 1 0 then (1 : Nat) else 0)) != 0) &&
  (cfg.ta1_value == buf.getD 2 0) &&
  (((((if (0 : Nat) == buf.getD 0 0 then (1 : Nat) else 0) ^^^ buf.getD 2 0) ^^^
      buf.getD 1 0) ^^^ buf.getD 3 0) != 0)

/-- **C3 (refutation / code bug).**  The PPS validation is *not* a
byte-exact match.  The serial checker accepts the 3-byte response
`FF 01 00`, whose checksum byte 0x00 differs from the expected
`PPSS ^ PPS0 = 0xFE`; the USB checker accepts `FF 00 11 01`, whose PPS0
byte 0x00 differs from the expected `0x01 | 0x10 = 0x11` (and whose
checksum is also wrong).  Cause: C operator precedence — `==` binds
tighter than `^` and `|` — so the XOR-checksum conjunct and the USB PPS0
conjunct do not test what they were written to test. -/
theorem C3_pps_not_byte_exact :
    check_pps_response default_config [0xFF, 0x01, 0x00] 3 = true ∧
    (0x00 : Nat) ≠ PPSS ^^^ atr_prot_t1 ∧
    check_usb_pps_response default_config [0xFF, 0x00, 0x11, 0x01] 4 = true ∧
    (0x00 : Nat) ≠ atr_prot_t1 ||| 0x10 := by decide

/-! ## ATR parsing (atr_ibyte_num, atr_decoded_init, parse_atr)

`p_intf` (which of the two interface-byte arrays, if any, the next
TA/TB/TC bytes are written into) is modelled as `Option (Bool × Nat)`:
`none` is the dummy `intf_null` buffer, `some (false, base)` is
`&global_bytes[base]`, `some (true, base)` is `&t1_bytes[base]`.
`hist_bytes` (a pointer into the input) is modelled as the index of the
first historical byte. -/

/-- `atr_ibyte_num`: number of interface bytes announced by indicator Y. -/
def atr_ibyte_num (y : Nat) : Nat :=
  ((y >>> 3) &&& 1) + ((y >>> 2) &&& 1) + ((y >>> 1) &&& 1) + (y &&& 1)

def t1_atr_intf_bytes : Nat := 9

structure AtrDecoded where
  atr : List Nat
  convention : Nat
  global_bytes : List Int
  t1_bytes : List Int
  t0_supported : Bool
  t1_supported : Bool
  hist_start : Option Nat
  hist_nbytes : Nat
  deriving DecidableEq, Repr

/-- `atr_decoded_init`. -/
def atr_decoded_init (buf : List Nat) : AtrDecoded :=
  { atr := buf, convention := 0,
    global_bytes := List.replicate t1_atr_intf_bytes (-1),
    t1_bytes := List.replicate t1_atr_intf_bytes (-1),
    t0_supported := false, t1_supported := false,
    hist_start := none, hist_nbytes := 0 }

/-- Local state of the `parse_atr` loop. -/
structure AtrParse where
  dec : AtrDecoded
  p_intf : Option (Bool × Nat)
  intf_idx : Nat
  global_idx : Nat
  t1_idx : Nat
  exp_len : Nat
  indicator : Nat
  checksum : Nat
  tck_present : Bool
  deriving DecidableEq, Repr

/-- `p_intf[off] = v` (writes to the dummy buffer are dropped). -/
def intf_write (s : AtrParse) (off : Nat) (v : Int) : AtrParse :=
  match s.p_intf with
  | none => s
  | some (false, base) =>
    { s with dec := { s.dec with
        global_bytes := s.dec.global_bytes.set (base + off) v } }
  | some (true, base) =>
    { s with dec := { s.dec with
        t1_bytes := s.dec.t1_bytes.set (base + off) v } }

/-- One iteration of the `parse_atr` `for` loop body, for byte `b` at
index `n`; `none` is the `return false` inside the loop. -/
def atr_step (b n : Nat) (s : AtrParse) : Option AtrParse :=
  let s' :=
    if n = 0 then
      if b = TS_CONVENTION_INVERSE then
        some { s with dec := { s.dec with convention := 1 } }
      else if b ≠ TS_CONVENTION_DIRECT then none
      else some s
    else if n = 1 then
      let hist := b % 16
      let ind := b / 16
      let s := { s with dec := { s.dec with hist_nbytes := hist },
                        exp_len := s.exp_len + hist, indicator := ind }
      let s := if ind ≠ 0 then
          { s with p_intf := some (false, s.global_idx),
                   global_idx := s.global_idx + 3,
                   exp_len := s.exp_len + atr_ibyte_num ind }
        else s
      let s := if ind &&& 8 = 0 then
          { s with dec := { s.dec with t0_supported := true } }
        else s
      some s
    else
      if s.indicator &&& 1 ≠ 0 then
        some { intf_write s 0 (b : Int) with indicator := s.indicator ^^^ 1 }
      else if s.indicator &&& 2 ≠ 0 then
        some { intf_write s 1 (b : Int) with indicator := s.indicator ^^^ 2 }
      else if s.indicator &&& 4 ≠ 0 then
        some { intf_write s 2 (b : Int) with indicator := s.indicator ^^^ 4 }
      else if s.indicator &&& 8 ≠ 0 then
        let s := { s with p_intf := none, indicator := b / 16 }
        if b / 16 ≠ 0 then
          let prot := b % 16
          let s := { s with exp_len := s.exp_len + atr_ibyte_num (b / 16),
                            intf_idx := s.intf_idx + 1 }
          let s :=
            if prot = atr_prot_t0 then
              { s with dec := { s.dec with t0_supported := true } }
            else if prot = atr_prot_t1 then
              { s with dec := { s.dec with t1_supported := true } }
            else s
          let s :=
            if prot = atr_prot_t1 ∧ s.intf_idx > 2 then
              (if s.t1_idx + 3 ≤ t1_atr_intf_bytes then
                { s with p_intf := some (true, s.t1_idx), t1_idx := s.t1_idx + 3 }
              else s)
            else if prot = atr_globals ∨ s.intf_idx ≤ 2 then
              (if s.global_idx + 3 ≤ t1_atr_intf_bytes then
                { s with p_intf := some (false, s.global_idx),
                         global_idx := s.global_idx + 3 }
              else s)
            else s
          let s :=
            if prot ≠ atr_prot_t0 ∧ ¬s.tck_present then
              { s with tck_present := true, exp_len := s.exp_len + 1 }
            else s
          some s
        else some s
      else if s.dec.hist_start = none then
        some { s with dec := { s.dec with hist_start := some n } }
      else some s
  match s' with
  | none => none
  | some s2 => some (if n > 0 then { s2 with checksum := s2.checksum ^^^ b } else s2)

/-- The `parse_atr` loop
`for(n = 0; n < len && exp_len <= len && n < exp_len; n++)`, with fuel
`buf.length - n` (so the `n < len` part of the guard is the fuel). -/
def atr_loop (buf : List Nat) : Nat → Nat → AtrParse → Option AtrParse
  | 0, _, s => some s
  | fuel + 1, n, s =>
    if n < buf.length ∧ s.exp_len ≤ buf.length ∧ n < s.exp_len then
      match atr_step (buf.getD n 0) n s with
      | none => none
      | some s' => atr_loop buf fuel (n + 1) s'
    else some s

/-- Initial loop state of `parse_atr` (its local variables before the loop). -/
def atr_parse_init (buf : List Nat) : AtrParse :=
  { dec := atr_decoded_init buf, p_intf := none, intf_idx := 1,
    global_idx := 0, t1_idx := 0, exp_len := ATR_MIN_BYTES,
    indicator := 0, checksum := 0, tck_present := false }

/-- `parse_atr`: `none` models `return false`. -/
def parse_atr (buf : List Nat) : Option AtrDecoded :=
  match atr_loop buf buf.length 0 (atr_parse_init buf) with
  | none => none
  | some s =>
    if s.exp_len ≤ buf.length ∧ (¬s.tck_present ∨ s.checksum = 0) then
      some s.dec
    else none

/-- **C2 counterexample.** `parse_atr` *accepts* the two-byte ATR
`3F 00`, whose TS byte is 0x3F (inverse convention), not 0x3B: the claim
that every input not starting with 0x3B is rejected is false. -/
theorem C2_counterexample_inverse_accepted :
    (parse_atr [0x3F, 0x00]).isSome = true ∧ (0x3F : Nat) ≠ TS_CONVENTION_DIRECT := by
  decide

/-- **C2 (amended).** `parse_atr` succeeds only on inputs of at least two
bytes whose TS byte is 0x3B (direct convention) or 0x3F (inverse
convention); every input whose first byte is neither is rejected. -/
theorem C2_parse_atr_ts_byte (buf : List Nat)
    (h : (parse_atr buf).isSome = true) :
    2 ≤ buf.length ∧
    (buf.getD 0 0 = TS_CONVENTION_DIRECT ∨ buf.getD 0 0 = TS_CONVENTION_INVERSE) := by
  rw [parse_atr] at h
  have hexp : (atr_parse_init buf).exp_len = 2 := rfl
  cases hl : atr_loop buf buf.length 0 (atr_parse_init buf) with
  | none => rw [hl] at h; simp at h
  | some s =>
    rw [hl] at h
    replace h : (if s.exp_len ≤ buf.length ∧ (¬s.tck_present ∨ s.checksum = 0) then
        some s.dec else none).isSome = true := h
    by_cases hcheck : s.exp_len ≤ buf.length ∧ (¬s.tck_present ∨ s.checksum = 0)
    · cases hlen : buf.length with
      | zero =>
        rw [hlen] at hl
        simp only [atr_loop, Option.some.injEq] at hl
        subst hl
        have h1 := hcheck.1
        omega
      | succ k =>
        cases hk : k with
        | zero =>
          rw [hk] at hlen
          rw [hlen] at hl
          simp only [atr_loop] at hl
          rw [if_neg (by intro hC; have := hC.2.1; omega)] at hl
          simp only [Option.some.injEq] at hl
          subst hl
          have h1 := hcheck.1
          omega
        | succ m =>
          rw [hk] at hlen
          refine ⟨by omega, ?_⟩
          by_cases h3b : buf.getD 0 0 = TS_CONVENTION_DIRECT
          · exact Or.inl h3b
          by_cases h3f : buf.getD 0 0 = TS_CONVENTION_INVERSE
          · exact Or.inr h3f
          exfalso
          rw [hlen] at hl
          simp only [atr_loop] at hl
          rw [if_pos ⟨by omega, by rw [hexp]; omega, by rw [hexp]; omega⟩] at hl
          generalize hb : buf.getD 0 0 = b at h3b h3f hl
          have hstep : atr_step b 0 (atr_parse_init buf) = none := by
            simp [atr_step, h3b, h3f]
          rw [hstep] at hl
          simp at hl
    · rw [if_neg hcheck] at h
      simp at h

/-- Witness for the amended C2 at a concrete accepted ATR. -/
theorem C2_parse_atr_ts_byte_witness :
    2 ≤ ([0x3B, 0x00] : List Nat).length ∧
    (([0x3B, 0x00] : List Nat).getD 0 0 = TS_CONVENTION_DIRECT ∨
     ([0x3B, 0x00] : List Nat).getD 0 0 = TS_CONVENTION_INVERSE) :=
  C2_parse_atr_ts_byte [0x3B, 0x00] (by decide)

/-! ## Protocol instance state (t1_inst_t)

The `.c` file's eight-state FSM (the two `ifsd_setup` states are used by
the code) and the receive sub-FSM.  The TX FIFO ring is modelled as the
queue of whole stored blocks, see the header comment.  The union
`t1_block_prm_t` is flattened into one record with a `block_type` tag;
the code only reads the fields of the variant selected by the tag. -/

inductive FsmState
  | wait_atr
  | pps_exchange
  | ifsd_setup_prepare
  | ifsd_setup
  | idle
  | wait_response
  | resync
  | error
  deriving DecidableEq, Repr

inductive RxState
  | skip
  | nad
  | pcb
  | len
  | inf
  | edc
  deriving DecidableEq, Repr

inductive BlockType
  | unkn
  | iblk
  | rblk
  | sblk
  deriving DecidableEq, Repr

/-- Numeric value of `t1_block_type_t`, used in the FIFO block header. -/
def BlockType.val : BlockType → Nat
  | .unkn => 0
  | .iblk => 1
  | .rblk => 2
  | .sblk => 3

/-- `t1_block_prm_t` with its union flattened (fields prefixed by the
variant they belong to); `rb_ack_code` and `sb_command` are kept as raw
numbers because `decode_pcb` casts arbitrary masked PCB bits into the C
enums. -/
structure BlockPrm where
  block_type : BlockType
  inf_len : Nat
  ib_more_data : Bool
  ib_seq_number : Nat
  rb_ack_code : Nat
  rb_seq_number : Nat
  sb_command : Nat
  sb_is_response : Bool
  sb_inf_byte : Int
  deriving DecidableEq, Repr

/-- An all-zero `t1_block_prm_t` (the C struct is uninitialized until the
code stores into it; a fixed value models the don't-care contents). -/
def BlockPrm.initial : BlockPrm :=
  { block_type := .unkn, inf_len := 0, ib_more_data := false,
    ib_seq_number := 0, rb_ack_code := 0, rb_seq_number := 0,
    sb_command := 0, sb_is_response := false, sb_inf_byte := -1 }

/-- One block stored in the TX FIFO: the `block_hdr_t` fields plus the
`size` bytes of the serialized block (prologue ++ INF ++ epilogue). -/
structure TxBlock where
  size : Nat
  btype : Nat
  more_data : Bool
  seq_number : Nat
  bytes : List Nat
  deriving DecidableEq, Repr

/-- The TX FIFO ring viewed as a queue of whole stored blocks. -/
structure TxFifo where
  blocks : List TxBlock
  capacity : Nat
  deriving DecidableEq, Repr

/-- `fifo_nused` on the engine's TX FIFO: each stored block occupies
`sizeof(block_hdr_t)` header bytes plus its `size` payload bytes. -/
def tx_nused (f : TxFifo) : Nat :=
  f.blocks.foldl (fun acc b => acc + block_hdr_bytes + b.size) 0

/-- `fifo_nfree` on the engine's TX FIFO (capacity − used − 1, per the
FIFO invariant proved as C9). -/
def tx_nfree (f : TxFifo) : Nat := f.capacity - 1 - tx_nused f

/-- `t1_inst_t` (t1_protocol_defs.h).  `rx_buf`/`rx_apdu` are the filled
prefixes of the C arrays (`rx_buf_idx` and `rx_apdu_prm.len` are the list
lengths). -/
structure T1Inst where
  fsm_state : FsmState
  tx_fifo : TxFifo
  tx_fifo_nblock : Nat
  tx_seq_number : Nat
  tx_last_seq_number : Nat
  tx_attempts : Nat
  tx_prev_block_prm : BlockPrm
  tx_block_ctr : Nat
  config : T1Config
  rx_buf : List Nat
  rx_block_prm : BlockPrm
  rx_state : RxState
  rx_expected_bytes : Int
  rx_apdu : List Nat
  rx_new_apdu : Bool
  rx_bad_block : Bool
  rx_seq_number : Nat
  tmr_interbyte_timeout : Nat
  tmr_atr_timeout : Nat
  tmr_response_timeout : Nat
  deriving DecidableEq, Repr

/-- The world visible through the two callbacks: the serial-out call
counter, the trace of byte strings handed to `cb_serial_out`, and the
events delivered to `cb_handle_event`. -/
structure T1Io where
  inst : T1Inst
  ser_calls : Nat
  trace : List (List Nat)
  delivered : List Event
  deriving DecidableEq, Repr

/-- Environment: the result of the n-th `cb_serial_out` invocation. -/
def Env : Type := Nat → Bool

/-- One `cb_serial_out(buf, len, ...)` invocation. -/
def serial_out (env : Env) (io : T1Io) (bytes : List Nat) : Bool × T1Io :=
  (env io.ser_calls,
   { io with ser_calls := io.ser_calls + 1, trace := io.trace ++ [bytes] })

/-! ## EDC helpers bound to the instance configuration -/

/-- `edc_size`. -/
def edc_size (cfg : T1Config) : Nat :=
  if cfg.use_crc ≠ 0 then CRC_SIZE else LRC_SIZE

/-- `calc_edc_multi`. -/
def calc_edc_multi (cfg : T1Config) (buf_list : List (List Nat))
    (dst_len : Nat) : List Nat :=
  if cfg.use_crc ≠ 0 then calc_crc buf_list dst_len else calc_lrc buf_list dst_len

/-- `calc_edc` (single source buffer). -/
def calc_edc (cfg : T1Config) (src : List Nat) (dst_len : Nat) : List Nat :=
  calc_edc_multi cfg [src] dst_len

/-! ## Reset and init -/

/-- `reset_rx`. -/
def reset_rx (inst : T1Inst) : T1Inst :=
  { inst with
    rx_buf := [],
    rx_block_prm := { inst.rx_block_prm with block_type := .unkn, inf_len := 0 },
    rx_state := .skip,
    rx_expected_bytes := -1,
    tmr_interbyte_timeout := 0 }

/-- `t1_reset` (the configuration persists). -/
def t1_reset (inst : T1Inst) (wait_atr : Bool) : T1Inst :=
  let inst :=
    { inst with
      fsm_state := if wait_atr then FsmState.wait_atr else FsmState.idle,
      tx_fifo := { inst.tx_fifo with blocks := [] },
      tx_fifo_nblock := 0,
      tx_seq_number := 0,
      tx_last_seq_number := 0,
      tx_attempts := 0,
      tx_prev_block_prm :=
        { inst.tx_prev_block_prm with block_type := .unkn, inf_len := 0 },
      tx_block_ctr := 0 }
  let inst := reset_rx inst
  { inst with
    rx_apdu := [],
    rx_seq_number := 0,
    rx_new_apdu := true,
    rx_bad_block := false,
    tmr_atr_timeout := if wait_atr then inst.config.tm_atr else 0,
    tmr_response_timeout := 0 }

/-- The instance produced by `t1_init`: default configuration, a FIFO of
`T1_TX_FIFO_SIZE` bytes, then `t1_reset(inst, true)`. -/
def t1_init_inst : T1Inst :=
  t1_reset
    { fsm_state := .wait_atr,
      tx_fifo := { blocks := [], capacity := T1_TX_FIFO_SIZE },
      tx_fifo_nblock := 0, tx_seq_number := 0, tx_last_seq_number := 0,
      tx_attempts := 0, tx_prev_block_prm := BlockPrm.initial,
      tx_block_ctr := 0, config := default_config, rx_buf := [],
      rx_block_prm := BlockPrm.initial, rx_state := .skip,
      rx_expected_bytes := -1, rx_apdu := [], rx_new_apdu := true,
      rx_bad_block := false, rx_seq_number := 0,
      tmr_interbyte_timeout := 0, tmr_atr_timeout := 0,
      tmr_response_timeout := 0 }
    true

/-! ## Pushing blocks into the TX FIFO -/

/-- `push_block`: codes a block and pushes it into the TX FIFO. -/
def push_block (inst : T1Inst) (type : BlockType) (pcb : Nat)
    (inf : List Nat) (more_data : Bool) (seq_number : Nat) : Bool × T1Inst :=
  if inf.length ≤ inst.config.ifsc then
    let prologue := [TX_NAD_VALUE, pcb, inf.length % 256]
    let epilogue := calc_edc_multi inst.config [prologue, inf] MAX_EDC_LEN
    let block_size := prologue_size + inf.length + epilogue.length
    if epilogue.length ≠ 0 ∧ block_size ≤ MAX_IBLOCK_SIZE ∧
        block_size + block_hdr_bytes ≤ tx_nfree inst.tx_fifo then
      let hdr_block : TxBlock :=
        { size := block_size, btype := type.val, more_data := more_data,
          seq_number := seq_number, bytes := prologue ++ inf ++ epilogue }
      (true,
       { inst with
         tx_fifo := { inst.tx_fifo with blocks := inst.tx_fifo.blocks ++ [hdr_block] },
         tx_fifo_nblock := inst.tx_fifo_nblock + 1 })
    else (false, inst)
  else (false, inst)

/-- `push_iblock`. -/
def push_iblock (inst : T1Inst) (inf : List Nat) (more_data : Bool) :
    Bool × T1Inst :=
  let pcb := (if inst.tx_seq_number ≠ 0 then IB_NS_BIT else 0) |||
             (if more_data then IB_M_BIT else 0)
  match push_block inst .iblk pcb inf more_data inst.tx_seq_number with
  | (true, inst') => (true, { inst' with tx_seq_number := inst'.tx_seq_number ^^^ 1 })
  | (false, inst') => (false, inst')

/-- `iblock_chain_size`. -/
def iblock_chain_size (cfg : T1Config) (apdu_len ifsc : Nat) : Nat :=
  if ifsc ≠ 0 then
    let iblock_overhead := prologue_size + edc_size cfg
    let whole_blocks := apdu_len / ifsc
    let extra_bytes := apdu_len % ifsc
    whole_blocks * (ifsc + iblock_overhead) +
      (if extra_bytes ≠ 0 then extra_bytes + iblock_overhead else 0)
  else 0

/-- The `while(rm_bytes)` loop of `push_iblock_chain`.  The fuel is the
number of remaining APDU bytes; each iteration consumes at least one byte
whenever `ifsc ≥ 1` (the loop is only entered with a nonzero chain size,
which forces `ifsc ≠ 0`). -/
def push_chain_loop (ifsc : Nat) : Nat → T1Inst → List Nat → Bool × T1Inst
  | _, inst, [] => (true, inst)
  | 0, inst, _ :: _ => (false, inst)
  | fuel + 1, inst, rm =>
    let inf_len := if rm.length > ifsc then ifsc else rm.length
    match push_iblock inst (rm.take inf_len) (rm.length > ifsc) with
    | (true, inst') => push_chain_loop ifsc fuel inst' (rm.drop inf_len)
    | (false, inst') => (false, inst')

/-- `push_iblock_chain`. -/
def push_iblock_chain (inst : T1Inst) (apdu : List Nat) : Bool × T1Inst :=
  let ifsc := inst.config.ifsc
  let tot_size := iblock_chain_size inst.config apdu.length ifsc
  if tot_size ≠ 0 ∧ tot_size ≤ tx_nfree inst.tx_fifo then
    push_chain_loop ifsc apdu.length inst apdu
  else (false, inst)

/-! ## Direct block transmission -/

/-- The wire bytes of an S-block as built by `send_sblock` (prologue,
optional INF byte, EDC).  `(uint8_t)inf_byte` is `inf_byte.toNat % 256`
on the non-negative values that reach the cast. -/
def sblock_frame (cfg : T1Config) (command : Nat) (is_response : Bool)
    (inf_byte : Int) : List Nat :=
  let body := [TX_NAD_VALUE,
               SB_MARKER ||| command ||| (if is_response then SB_RESP_BIT else 0),
               if inf_byte ≥ 0 then 1 else 0] ++
              (if inf_byte ≥ 0 then [inf_byte.toNat % 256] else [])
  body ++ calc_edc cfg body MAX_EDC_LEN

/-- `send_sblock`: transmit, bump the saturating block counter, arm the
response timer, save the previous-block parameters. -/
def send_sblock (env : Env) (io : T1Io) (command : Nat) (is_response : Bool)
    (inf_byte : Int) : Event × T1Io :=
  let bytes := sblock_frame io.inst.config command is_response inf_byte
  match serial_out env io bytes with
  | (false, io') => (event .err_serial_out, io')
  | (true, io') =>
    let inst := io'.inst
    let inst := { inst with
      tx_block_ctr := if inst.tx_block_ctr < 255 then inst.tx_block_ctr + 1
                      else inst.tx_block_ctr,
      tmr_response_timeout := inst.config.tm_response,
      tx_prev_block_prm := { inst.tx_prev_block_prm with
        block_type := .sblk,
        inf_len := if inf_byte ≥ 0 then 1 else 0,
        sb_command := command,
        sb_is_response := is_response,
        sb_inf_byte := inf_byte } }
    (event_none, { io' with inst := inst })

/-- The wire bytes of an R-block as built by `send_rblock`. -/
def rblock_frame (cfg : T1Config) (ack_code : Nat) (seq_number : Nat) :
    List Nat :=
  let body := [TX_NAD_VALUE,
               RB_MARKER ||| (if seq_number ≠ 0 then RB_NS_BIT else 0) ||| ack_code,
               0]
  body ++ calc_edc cfg body MAX_EDC_LEN

/-- `send_rblock` (no block-counter increment, unlike `send_sblock`). -/
def send_rblock (env : Env) (io : T1Io) (ack_code : Nat) (seq_number : Nat) :
    Event × T1Io :=
  let bytes := rblock_frame io.inst.config ack_code seq_number
  match serial_out env io bytes with
  | (false, io') => (event .err_serial_out, io')
  | (true, io') =>
    let inst := io'.inst
    let inst := { inst with
      tmr_response_timeout := inst.config.tm_response,
      tx_prev_block_prm := { inst.tx_prev_block_prm with
        block_type := .rblk,
        inf_len := 0,
        rb_ack_code := ack_code,
        rb_seq_number := seq_number } }
    (event_none, { io' with inst := inst })

/-! ## TX FIFO block operations of the engine -/

/-- `tx_fifo_has_block`. -/
def tx_fifo_has_block (inst : T1Inst) : Bool :=
  block_hdr_bytes < tx_nused inst.tx_fifo

/-- The `while(block_size)` loop of `tx_fifo_send_last_block`: the block
bytes go out through `cb_serial_out` in chunks of at most 256 bytes. -/
def serial_out_chunks (env : Env) : T1Io → List Nat → Bool × T1Io
  | io, [] => (true, io)
  | io, bs@(_ :: _) =>
    let r := serial_out env io (bs.take 256)
    if r.1 then serial_out_chunks env r.2 (bs.drop 256)
    else (false, r.2)
  termination_by _ bs => bs.length
  decreasing_by simp_all; omega

/-- `tx_fifo_send_last_block`: sends the oldest stored block (without
removing it), bumps the saturating block counter, arms the response
timer and records the previous-block parameters from the header. -/
def tx_fifo_send_last_block (env : Env) (io : T1Io) : Event × T1Io :=
  if tx_fifo_has_block io.inst then
    match io.inst.tx_fifo.blocks with
    | [] => (event_none, io)
    | b :: _ =>
      match serial_out_chunks env io b.bytes with
      | (false, io') => (event .err_serial_out, io')
      | (true, io') =>
        let inst := io'.inst
        let inst := { inst with
          tx_block_ctr := if inst.tx_block_ctr < 255 then inst.tx_block_ctr + 1
                          else inst.tx_block_ctr,
          tmr_response_timeout := inst.config.tm_response,
          tx_prev_block_prm := { inst.tx_prev_block_prm with
            block_type := .iblk,
            inf_len := b.size - prologue_size - edc_size inst.config,
            ib_more_data := b.more_data,
            ib_seq_number := b.seq_number },
          tx_last_seq_number := b.seq_number }
        (event_none, { io' with inst := inst })
  else (event_none, io)

/-- `tx_fifo_remove_last_block`. -/
def tx_fifo_remove_last_block (inst : T1Inst) : T1Inst :=
  if tx_fifo_has_block inst then
    { inst with
      tx_fifo := { inst.tx_fifo with blocks := inst.tx_fifo.blocks.tail },
      tx_fifo_nblock := inst.tx_fifo_nblock - 1 }
  else inst

/-- `send_block_if_available`.  (When called in the `error` state the C
function falls off its end without a `return`; that path is unreachable
from its call sites and is completed here with `event_none`.) -/
def send_block_if_available (env : Env) (io : T1Io) : Event × T1Io :=
  if io.inst.fsm_state ≠ .error then
    if tx_fifo_has_block io.inst then
      tx_fifo_send_last_block env
        { io with inst := { io.inst with fsm_state := .wait_response } }
    else
      (event_none, { io with inst := { io.inst with fsm_state := .idle } })
  else (event_none, io)

/-! ## Bad-block policy (handle_bad_block) -/

/-- `handle_bad_block`. -/
def handle_bad_block (env : Env) (io : T1Io) (_block_type : BlockType)
    (ack_code : Nat) : Event × T1Io :=
  let inst := { io.inst with tmr_response_timeout := 0, rx_bad_block := true }
  let io := { io with inst := inst }
  if inst.fsm_state ≠ .resync then
    if inst.tx_attempts + 1 < DELIVERY_ATTEMPTS then
      let io := { io with inst := { inst with tx_attempts := inst.tx_attempts + 1 } }
      send_rblock env io ack_code io.inst.rx_seq_number
    else if inst.tx_block_ctr ≤ 1 then
      (event .err_comm_failure, io)
    else
      let io := { io with inst := { inst with tx_attempts := 0, fsm_state := .resync } }
      send_sblock env io 0 false (-1)
  else
    if inst.tx_attempts + 1 < RESYNC_ATTEMPTS then
      let io := { io with inst := { inst with tx_attempts := inst.tx_attempts + 1 } }
      send_sblock env io 0 false (-1)
    else
      (event .err_comm_failure, io)

/-! ## Event delivery (handle_event / handle_events) -/

/-- `handle_event`: on an error event the instance is reset
(`t1_reset(inst, false)`) and parked in the terminal `error` state before
the user callback runs. -/
def handle_event (io : T1Io) (e : Event) : T1Io :=
  if e.code ≠ .ev_none then
    let io :=
      if is_error e then
        { io with inst := { t1_reset io.inst false with fsm_state := .error } }
      else io
    { io with delivered := io.delivered ++ [e] }
  else io

/-- `handle_events`. -/
def handle_events (io : T1Io) (events : List Event) : T1Io :=
  events.foldl handle_event io

/-! ## Receive path -/

/-- `decode_pcb`. -/
def decode_pcb (prm : BlockPrm) (pcb : Nat) : BlockPrm :=
  let prm := { prm with inf_len := 0 }
  if pcb &&& PCB_MARKER_MASK = RB_MARKER then
    { prm with block_type := .rblk,
               rb_seq_number := if pcb &&& RB_NS_BIT ≠ 0 then 1 else 0,
               rb_ack_code := pcb &&& RB_ACK_MASK }
  else if pcb &&& PCB_MARKER_MASK = SB_MARKER then
    { prm with block_type := .sblk,
               sb_is_response := pcb &&& SB_RESP_BIT ≠ 0,
               sb_command := pcb &&& SB_CMD_MASK,
               sb_inf_byte := -1 }
  else
    { prm with block_type := .iblk,
               ib_more_data := pcb &&& IB_M_BIT ≠ 0,
               ib_seq_number := if pcb &&& IB_NS_BIT ≠ 0 then 1 else 0 }

/-- `check_rx_block_edc`. -/
def check_rx_block_edc (inst : T1Inst) : Bool :=
  if prologue_size + edc_size inst.config ≤ inst.rx_buf.length then
    let checked_size := inst.rx_buf.length - edc_size inst.config
    let edc_buf := calc_edc inst.config (inst.rx_buf.take checked_size) MAX_EDC_LEN
    if edc_buf.length ≠ 0 then
      decide (edc_buf = inst.rx_buf.drop checked_size)
    else false
  else false

/-- `save_apdu_data`. -/
def save_apdu_data (inst : T1Inst) (inf : List Nat) : Bool × T1Inst :=
  let inst :=
    if inst.rx_new_apdu then { inst with rx_new_apdu := false, rx_apdu := [] }
    else inst
  if inst.rx_apdu.length + inf.length ≤ T1_MAX_APDU_SIZE then
    (true, { inst with rx_apdu := inst.rx_apdu ++ inf })
  else (false, inst)

/-- `handle_iblock`. -/
def handle_iblock (env : Env) (io : T1Io) (seq_number : Nat)
    (more_data : Bool) (inf : List Nat) : Event × T1Io :=
  if io.inst.fsm_state = .wait_response then
    let io := { io with inst := { io.inst with tmr_response_timeout := 0 } }
    if seq_number = io.inst.rx_seq_number then
      let io := { io with inst :=
        { io.inst with rx_seq_number := io.inst.rx_seq_number ^^^ 1 } }
      match save_apdu_data io.inst inf with
      | (true, inst') =>
        let io := { io with inst := inst' }
        if more_data then
          send_rblock env io 0 io.inst.rx_seq_number
        else
          let io := { io with inst :=
            tx_fifo_remove_last_block { io.inst with rx_new_apdu := true } }
          let (ev, io) := send_block_if_available env io
          (if is_error ev then ev else event_ext .apdu_received, io)
      | (false, inst') =>
        (event .err_oversized_apdu, { io with inst := inst' })
    else
      handle_bad_block env io .iblk 2
  else
    handle_bad_block env io .iblk 2

/-- `resend_prev_block`. -/
def resend_prev_block (env : Env) (io : T1Io) : Event × T1Io :=
  let p_prev := io.inst.tx_prev_block_prm
  match p_prev.block_type with
  | .iblk =>
    if tx_fifo_has_block io.inst then tx_fifo_send_last_block env io
    else (event_none, io)
  | .rblk => send_rblock env io p_prev.rb_ack_code p_prev.rb_seq_number
  | .sblk => send_sblock env io p_prev.sb_command p_prev.sb_is_response
               p_prev.sb_inf_byte
  | .unkn => (event_none, io)

/-- `handle_rblock` (`t1_rblock_ack_ok = 0`, `err_edc = 1`, `err_other = 2`;
any other acknowledgement code falls through to `handle_bad_block`). -/
def handle_rblock (env : Env) (io : T1Io) (seq_number : Nat)
    (ack_code : Nat) : Event × T1Io :=
  if io.inst.fsm_state = .wait_response then
    if ack_code = 0 then
      if io.inst.tx_prev_block_prm.block_type = .iblk ∧
          io.inst.tx_prev_block_prm.ib_more_data ∧
          seq_number ≠ io.inst.tx_last_seq_number then
        let io := { io with inst := tx_fifo_remove_last_block io.inst }
        send_block_if_available env io
      else handle_bad_block env io .rblk 2
    else if ack_code = 1 ∨ ack_code = 2 then
      let io := { io with inst := { io.inst with rx_bad_block := true } }
      if io.inst.tx_attempts + 1 < DELIVERY_ATTEMPTS then
        let io := { io with inst :=
          { io.inst with tx_attempts := io.inst.tx_attempts + 1 } }
        resend_prev_block env io
      else
        let io := { io with inst :=
          { io.inst with tx_attempts := 0, fsm_state := .resync } }
        send_sblock env io 0 false (-1)
    else handle_bad_block env io .rblk 2
  else handle_bad_block env io .rblk 2

/-- `increase_response_timeout` (`uint32_t` multiply wraps mod 2^32). -/
def increase_response_timeout (inst : T1Inst) (mult : Nat) : T1Inst :=
  if mult ≠ 0 then
    let t := (inst.tmr_response_timeout * mult) % 2^32
    { inst with tmr_response_timeout :=
        if t > inst.config.tm_response_max then inst.config.tm_response_max else t }
  else inst

/-- `handle_sblock` (`t1_sblock_cmd_resynch = 0`, `ifs = 1`, `abort = 2`,
`wtx = 3`; other commands fall through to `handle_bad_block`). -/
def handle_sblock (env : Env) (io : T1Io) (command : Nat)
    (is_response : Bool) (inf_byte : Int) : Event × T1Io :=
  if io.inst.fsm_state ≠ .resync then
    if command = 1 then
      if is_response then
        let io := { io with inst := { io.inst with tmr_response_timeout := 0 } }
        let (ev, io) := send_block_if_available env io
        (if is_error ev then ev else event .connect, io)
      else if (IFS_MIN : Int) ≤ inf_byte ∧ inf_byte ≤ (IFS_MAX : Int) then
        let io := { io with inst := { io.inst with
          config := { io.inst.config with ifsc := inf_byte.toNat } } }
        send_sblock env io 1 true (-1)
      else handle_bad_block env io .sblk 2
    else if command = 2 then
      (event .err_sc_abort, io)
    else if command = 3 then
      if ¬is_response ∧ inf_byte > 0 then
        let (ev, io) := send_sblock env io 3 true (-1)
        let mult := if inf_byte < 2 then 2 else inf_byte.toNat % 256
        let io := { io with inst := increase_response_timeout io.inst mult }
        (ev, io)
      else handle_bad_block env io .sblk 2
    else handle_bad_block env io .sblk 2
  else
    if command = 0 ∧ is_response then
      let io := { io with inst := { io.inst with
        tx_seq_number := 0, tx_last_seq_number := 0, rx_seq_number := 0,
        config := { io.inst.config with ifsc := default_config.ifsc },
        tx_prev_block_prm :=
          { io.inst.tx_prev_block_prm with block_type := .unkn } } }
      send_block_if_available env io
    else handle_bad_block env io .sblk 2

/-- `handle_block`: dispatch on the received block type; the INF field is
`rx_buf + prologue_size` for `inf_len` bytes. -/
def handle_block (env : Env) (io : T1Io) : Event × T1Io :=
  let p_prm := io.inst.rx_block_prm
  let inf := (io.inst.rx_buf.drop prologue_size).take p_prm.inf_len
  match p_prm.block_type with
  | .iblk => handle_iblock env io p_prm.ib_seq_number p_prm.ib_more_data inf
  | .rblk =>
    if p_prm.inf_len = 0 then
      handle_rblock env io p_prm.rb_seq_number p_prm.rb_ack_code
    else handle_bad_block env io .rblk 2
  | .sblk => handle_sblock env io p_prm.sb_command p_prm.sb_is_response
               p_prm.sb_inf_byte
  | .unkn => handle_bad_block env io .unkn 2

/-- `handle_t1_data`: the per-byte receive FSM.  The C loop keeps a single
`ev` variable that later iterations overwrite; it is threaded as an
accumulator.  A receive-buffer overflow returns immediately (dropping the
remaining input bytes), everything else continues the loop. -/
def handle_t1_data (env : Env) : T1Io → Event → List Nat → Event × T1Io
  | io, ev, [] => (ev, io)
  | io, ev, b :: rest =>
    if io.inst.rx_buf.length < T1_RX_BUF_SIZE then
      let io := { io with inst := { io.inst with rx_buf := io.inst.rx_buf ++ [b] } }
      match io.inst.rx_state with
      | .skip =>
        let inst := io.inst
        let inst :=
          if inst.rx_expected_bytes < 0 then
            { inst with rx_expected_bytes := (inst.config.rx_skip_bytes : Int) }
          else inst
        let inst :=
          if inst.rx_expected_bytes ≠ 0 ∧ inst.rx_buf.length ≠ 0 then
            { inst with rx_buf := inst.rx_buf.dropLast,
                        rx_expected_bytes := inst.rx_expected_bytes - 1 }
          else { inst with rx_state := .pcb }
        handle_t1_data env { io with inst := inst } ev rest
      | .nad =>
        handle_t1_data env
          { io with inst := { io.inst with rx_state := .pcb } } ev rest
      | .pcb =>
        let inst := { io.inst with
          rx_block_prm := decode_pcb io.inst.rx_block_prm b, rx_state := .len }
        handle_t1_data env { io with inst := inst } ev rest
      | .len =>
        if b = 0 then
          let inst := { io.inst with
            rx_state := RxState.edc,
            rx_expected_bytes := (edc_size io.inst.config : Int) }
          handle_t1_data env { io with inst := inst } ev rest
        else if b ≤ T1_MAX_LEN_VALUE then
          let inst := { io.inst with
            rx_block_prm := { io.inst.rx_block_prm with inf_len := b },
            rx_expected_bytes := (b : Int), rx_state := .inf }
          handle_t1_data env { io with inst := inst } ev rest
        else
          let (ev', io') := handle_bad_block env io .unkn 2
          handle_t1_data env { io' with inst := reset_rx io'.inst } ev' rest
      | .inf =>
        let inst := { io.inst with
          rx_expected_bytes := io.inst.rx_expected_bytes - 1 }
        let inst :=
          if inst.rx_expected_bytes = 0 then
            { inst with rx_state := .edc,
                        rx_expected_bytes := (edc_size inst.config : Int) }
          else inst
        handle_t1_data env { io with inst := inst } ev rest
      | .edc =>
        let inst := { io.inst with
          rx_expected_bytes := io.inst.rx_expected_bytes - 1 }
        if inst.rx_expected_bytes = 0 then
          if check_rx_block_edc inst then
            let inst :=
              if inst.rx_block_prm.block_type = .sblk ∧
                  inst.rx_block_prm.inf_len ≠ 0 then
                { inst with rx_block_prm := { inst.rx_block_prm with
                    sb_inf_byte := (inst.rx_buf.getD prologue_size 0 : Int) } }
              else inst
            let inst := { inst with rx_bad_block := false }
            let (ev', io') := handle_block env { io with inst := inst }
            let io' :=
              if ¬io'.inst.rx_bad_block ∧ io'.inst.fsm_state ≠ .resync then
                { io' with inst := { io'.inst with tx_attempts := 0 } }
              else io'
            handle_t1_data env { io' with inst := reset_rx io'.inst } ev' rest
          else
            let (ev', io') := handle_bad_block env { io with inst := inst } .unkn 1
            handle_t1_data env { io' with inst := reset_rx io'.inst } ev' rest
        else
          handle_t1_data env { io with inst := inst } ev rest
    else
      let (ev', io') := handle_bad_block env io .unkn 2
      (ev', { io' with inst := reset_rx io'.inst })

/-- `handle_atr_data`. -/
def handle_atr_data (inst : T1Inst) (buf : List Nat) : Event × T1Inst :=
  if T1_RX_BUF_SIZE < inst.rx_buf.length + buf.length then
    (event .err_bad_atr, inst)
  else
    (event_none,
     { inst with rx_buf := inst.rx_buf ++ buf, tmr_atr_timeout := 0 })

/-- `handle_pps_data`: accumulates up to `pps_size` bytes, then validates
with `check_pps_response` (3 bytes) or `check_usb_pps_response`. -/
def handle_pps_data (io : T1Io) (buf : List Nat) (events : List Event) :
    T1Io × List Event :=
  if io.inst.config.pps_size ≤ T1_RX_BUF_SIZE ∧
      io.inst.rx_buf.length < T1_RX_BUF_SIZE then
    let n := min (io.inst.config.pps_size - io.inst.rx_buf.length) buf.length
    let io := { io with inst :=
      { io.inst with rx_buf := io.inst.rx_buf ++ buf.take n } }
    if io.inst.rx_buf.length = io.inst.config.pps_size then
      let io := { io with inst := { io.inst with tmr_response_timeout := 50 } }
      let res :=
        if io.inst.rx_buf.length = 3 then
          check_pps_response io.inst.config io.inst.rx_buf io.inst.rx_buf.length
        else
          check_usb_pps_response io.inst.config io.inst.rx_buf io.inst.rx_buf.length
      if res then
        let io := { io with inst :=
          { reset_rx io.inst with fsm_state := .ifsd_setup_prepare } }
        (io, event_add events (event .pps_exchange_done))
      else (io, event_add events (event .pps_failed))
    else (io, events)
  else (io, event_add events (event .err_internal))

/-- `handle_atr`: returns (card compatible, needs PPS exchange, inst). -/
def handle_atr (inst : T1Inst) (atr : AtrDecoded) : Bool × Bool × T1Inst :=
  if atr.t1_supported then
    let inst :=
      if atr.t1_bytes.getD 0 (-1) ≠ -1 then
        { inst with config :=
          { inst.config with ifsc := (atr.t1_bytes.getD 0 (-1)).toNat } }
      else inst
    let inst :=
      if atr.t1_bytes.getD 2 (-1) ≠ -1 then
        { inst with config := { inst.config with
            use_crc := (atr.t1_bytes.getD 2 (-1)).toNat &&& 1 } }
      else inst
    let needs_ppsx := atr.t1_bytes.getD 3 (-1) = -1
    let needs_ppsx :=
      if inst.config.dw_fetures &&& CCID_CLASS_AUTO_PPS_CUR ≠ 0 then false
      else needs_ppsx
    (true, needs_ppsx, inst)
  else (false, false, inst)

/-- The bytes of the PPS request built by `send_pps_request` (a VLA of
`pps_size` bytes; bytes beyond the ones written are don't-care, zero
here). -/
def pps_request_frame (cfg : T1Config) : List Nat :=
  let written :=
    if cfg.is_usb_reader = 0 then
      [PPSS, atr_prot_t1, PPSS ^^^ atr_prot_t1]
    else
      [PPSS, atr_prot_t1 ||| 0x10, cfg.ta1_value % 256,
       PPSS ^^^ (atr_prot_t1 ||| 0x10) ^^^ (cfg.ta1_value % 256)]
  (written ++ List.replicate cfg.pps_size 0).take cfg.pps_size

/-- `send_pps_request`. -/
def send_pps_request (env : Env) (io : T1Io) : Event × T1Io :=
  match serial_out env io (pps_request_frame io.inst.config) with
  | (false, io') => (event .err_serial_out, io')
  | (true, io') =>
    let inst := { io'.inst with
      tmr_response_timeout := io'.inst.config.tm_response }
    (event_none, { io' with inst := reset_rx inst })

/-- `send_ifsd_request`. -/
def send_ifsd_request (env : Env) (io : T1Io) : Event × T1Io :=
  let (ev, io) := send_sblock env io 1 false (io.inst.config.ifsd : Int)
  if ¬is_error ev then
    (ev, { io with inst := { io.inst with
      tmr_response_timeout := io.inst.config.tm_response } })
  else (ev, io)

/-! ## External API entries -/

/-- `t1_timer_task`. -/
def t1_timer_task (env : Env) (io : T1Io) (elapsed_ms : Nat) : T1Io :=
  if io.inst.fsm_state ≠ .error ∧ elapsed_ms ≠ 0 then
    let events : List Event := []
    let (io, events) :=
      if io.inst.fsm_state = .ifsd_setup_prepare then
        let (ev, io) := send_ifsd_request env io
        let events := event_add events ev
        ({ io with inst := { io.inst with fsm_state := .ifsd_setup } }, events)
      else (io, events)
    let (b1, t1v) := timer_elapsed io.inst.tmr_interbyte_timeout elapsed_ms
    let io := { io with inst := { io.inst with tmr_interbyte_timeout := t1v } }
    let (io, events) :=
      if b1 then
        let (io, events) :=
          if io.inst.fsm_state = .wait_atr then
            match parse_atr io.inst.rx_buf with
            | some atr_decoded =>
              let io := { io with inst := { io.inst with config :=
                { io.inst.config with ta1_value := atr_decoded.atr.getD 2 0 } } }
              match handle_atr io.inst atr_decoded with
              | (true, needs_ppsx, inst') =>
                let io := { io with inst := inst' }
                let events := event_add events (event_ext .atr_received)
                if needs_ppsx then
                  let (ev, io) := send_pps_request env io
                  let events := event_add events ev
                  ({ io with inst :=
                     { io.inst with fsm_state := .pps_exchange } }, events)
                else
                  let events := event_add events (event .pps_exchange_done)
                  ({ io with inst :=
                     { io.inst with fsm_state := .ifsd_setup_prepare } }, events)
              | (false, _, inst') =>
                ({ io with inst := inst' },
                 event_add events (event_ext .err_incompatible))
            | none => (io, event_add events (event .err_bad_atr))
          else if io.inst.fsm_state = .pps_exchange then
            (io, event_add events (event .pps_failed))
          else if io.inst.fsm_state = .ifsd_setup then
            (io, event_add events (event .err_comm_failure))
          else if io.inst.fsm_state = .wait_response then
            let (ev, io) := handle_bad_block env io .unkn 2
            (io, event_add events ev)
          else (io, events)
        ({ io with inst := reset_rx io.inst }, events)
      else (io, events)
    let (b2, t2v) := timer_elapsed io.inst.tmr_atr_timeout elapsed_ms
    let io := { io with inst := { io.inst with tmr_atr_timeout := t2v } }
    let events := if b2 then event_add events (event .err_atr_timeout) else events
    let (b3, t3v) := timer_elapsed io.inst.tmr_response_timeout elapsed_ms
    let io := { io with inst := { io.inst with tmr_response_timeout := t3v } }
    let (io, events) :=
      if b3 then
        let (io, events) :=
          if io.inst.fsm_state = .pps_exchange then
            (io, event_add events (event .pps_failed))
          else if io.inst.fsm_state = .ifsd_setup then
            (io, event_add events (event .err_comm_failure))
          else
            let (ev, io) := handle_bad_block env io .unkn 2
            (io, event_add events ev)
        ({ io with inst := reset_rx io.inst }, events)
      else (io, events)
    handle_events io events
  else io

/-- `t1_serial_in`. -/
def t1_serial_in (env : Env) (io : T1Io) (buf : List Nat) : T1Io :=
  if buf.length ≠ 0 ∧ io.inst.fsm_state ≠ .error then
    let events : List Event := []
    let (io, events) :=
      match io.inst.fsm_state with
      | .wait_atr =>
        let io := { io with inst := { io.inst with
          tmr_interbyte_timeout := io.inst.config.tm_interbyte } }
        let (ev, inst') := handle_atr_data io.inst buf
        ({ io with inst := inst' }, event_add events ev)
      | .pps_exchange =>
        let io := { io with inst := { io.inst with
          tmr_interbyte_timeout := io.inst.config.tm_interbyte } }
        handle_pps_data io buf events
      | .ifsd_setup | .wait_response | .resync =>
        let io := { io with inst := { io.inst with
          tmr_interbyte_timeout := io.inst.config.tm_interbyte } }
        let (ev, io) := handle_t1_data env io event_none buf
        (io, event_add events ev)
      | _ => (io, events)
    handle_events io events
  else io

/-- `t1_transmit_apdu`. -/
def t1_transmit_apdu (env : Env) (io : T1Io) (apdu : List Nat) :
    Bool × T1Io :=
  if apdu.length ≠ 0 ∧ io.inst.fsm_state ≠ .error then
    match push_iblock_chain io.inst apdu with
    | (true, inst') =>
      let io := { io with inst := inst' }
      if io.inst.fsm_state = .idle then
        let (ev, io) := tx_fifo_send_last_block env io
        let io := { io with inst := { io.inst with fsm_state := .wait_response } }
        let io := handle_event io ev
        (!is_error ev, io)
      else (true, io)
    | (false, inst') => (false, { io with inst := inst' })
  else (false, io)

/-- `t1_is_error_event`. -/
def t1_is_error_event (ev_code : EvCode) : Bool := 100 ≤ ev_code.val

/-- `t1_has_error`. -/
def t1_has_error (inst : T1Inst) : Bool := inst.fsm_state = .error

/-- `t1_can_sleep_ms` (DEF_SLEEP_TIME_MS = 50, UINT32_MAX otherwise). -/
def t1_can_sleep_ms (inst : T1Inst) : Nat :=
  if inst.tmr_interbyte_timeout ≠ 0 ∨ inst.tmr_atr_timeout ≠ 0 ∨
      inst.tmr_response_timeout ≠ 0 then 50
  else 4294967295

/-! ## Helper lemmas: what the senders do and do not touch -/

theorem serial_out_chunks_inst_aux (env : Env) :
    ∀ n (bs : List Nat) (io : T1Io), bs.length ≤ n →
      (serial_out_chunks env io bs).2.inst = io.inst := by
  intro n
  induction n with
  | zero =>
    intro bs io h
    have hbs : bs = [] := List.eq_nil_of_length_eq_zero (by omega)
    subst hbs
    rw [serial_out_chunks]
  | succ n ih =>
    intro bs io h
    cases bs with
    | nil => rw [serial_out_chunks]
    | cons b rest =>
      rw [serial_out_chunks]
      simp only [serial_out]
      have := ih (List.drop 256 (b :: rest))
        { io with ser_calls := io.ser_calls + 1,
                  trace := io.trace ++ [List.take 256 (b :: rest)] }
        (by simp [List.length_drop, List.length_cons] at h ⊢; omega)
      cases henv : env io.ser_calls <;> simp_all

theorem serial_out_chunks_inst (env : Env) (io : T1Io) (bs : List Nat) :
    (serial_out_chunks env io bs).2.inst = io.inst :=
  serial_out_chunks_inst_aux env bs.length bs io (le_refl _)

theorem send_rblock_spec (env : Env) (io : T1Io) (a q : Nat) :
    (send_rblock env io a q).2.trace =
      io.trace ++ [rblock_frame io.inst.config a q] ∧
    (send_rblock env io a q).2.inst.rx_bad_block = io.inst.rx_bad_block ∧
    (send_rblock env io a q).2.inst.tx_attempts = io.inst.tx_attempts ∧
    (send_rblock env io a q).2.inst.fsm_state = io.inst.fsm_state ∧
    (send_rblock env io a q).2.inst.rx_seq_number = io.inst.rx_seq_number ∧
    (send_rblock env io a q).2.inst.rx_apdu = io.inst.rx_apdu ∧
    (send_rblock env io a q).2.inst.rx_new_apdu = io.inst.rx_new_apdu ∧
    (send_rblock env io a q).2.inst.tx_fifo = io.inst.tx_fifo ∧
    (send_rblock env io a q).2.inst.config = io.inst.config := by
  rw [send_rblock, serial_out]
  cases env io.ser_calls <;> simp

theorem send_sblock_spec (env : Env) (io : T1Io) (cmd : Nat)
    (resp : Bool) (ib : Int) :
    (send_sblock env io cmd resp ib).2.trace =
      io.trace ++ [sblock_frame io.inst.config cmd resp ib] ∧
    (send_sblock env io cmd resp ib).2.inst.rx_bad_block = io.inst.rx_bad_block ∧
    (send_sblock env io cmd resp ib).2.inst.tx_attempts = io.inst.tx_attempts ∧
    (send_sblock env io cmd resp ib).2.inst.fsm_state = io.inst.fsm_state ∧
    (send_sblock env io cmd resp ib).2.inst.rx_seq_number = io.inst.rx_seq_number ∧
    (send_sblock env io cmd resp ib).2.inst.rx_apdu = io.inst.rx_apdu ∧
    (send_sblock env io cmd resp ib).2.inst.rx_new_apdu = io.inst.rx_new_apdu ∧
    (send_sblock env io cmd resp ib).2.inst.tx_fifo = io.inst.tx_fifo ∧
    (send_sblock env io cmd resp ib).2.inst.config = io.inst.config := by
  rw [send_sblock, serial_out]
  cases env io.ser_calls <;> simp

theorem tx_fifo_send_last_block_spec (env : Env) (io : T1Io) :
    (tx_fifo_send_last_block env io).2.inst.tx_fifo = io.inst.tx_fifo ∧
    (tx_fifo_send_last_block env io).2.inst.rx_seq_number = io.inst.rx_seq_number ∧
    (tx_fifo_send_last_block env io).2.inst.rx_apdu = io.inst.rx_apdu ∧
    (tx_fifo_send_last_block env io).2.inst.rx_new_apdu = io.inst.rx_new_apdu ∧
    (tx_fifo_send_last_block env io).2.inst.rx_bad_block = io.inst.rx_bad_block ∧
    (tx_fifo_send_last_block env io).2.inst.fsm_state = io.inst.fsm_state ∧
    (tx_fifo_send_last_block env io).2.inst.config = io.inst.config := by
  rw [tx_fifo_send_last_block]
  split
  · rcases hbs : io.inst.tx_fifo.blocks with _ | ⟨b, rest⟩
    · simp
    · have hinst := serial_out_chunks_inst env io b.bytes
      rcases hch : serial_out_chunks env io b.bytes with ⟨ok, io'⟩
      rw [hch] at hinst
      simp only at hinst
      cases ok <;> simp_all
  · simp

theorem send_block_if_available_spec (env : Env) (io : T1Io) :
    (send_block_if_available env io).2.inst.tx_fifo = io.inst.tx_fifo ∧
    (send_block_if_available env io).2.inst.rx_seq_number = io.inst.rx_seq_number ∧
    (send_block_if_available env io).2.inst.rx_apdu = io.inst.rx_apdu ∧
    (send_block_if_available env io).2.inst.rx_new_apdu = io.inst.rx_new_apdu ∧
    (send_block_if_available env io).2.inst.rx_bad_block = io.inst.rx_bad_block ∧
    (send_block_if_available env io).2.inst.config = io.inst.config := by
  rw [send_block_if_available]
  split
  · split
    · have h := tx_fifo_send_last_block_spec env
        { io with inst := { io.inst with fsm_state := .wait_response } }
      exact ⟨h.1, h.2.1, h.2.2.1, h.2.2.2.1, h.2.2.2.2.1, h.2.2.2.2.2.2⟩
    · simp
  · simp

/-- **C6.** An error event parks the FSM in the terminal `error` state;
while in that state `t1_transmit_apdu` returns false leaving the whole
world (engine state, serial output, delivered events) unchanged, and
`t1_serial_in` / `t1_timer_task` are no-ops producing no events. -/
theorem C6_error_state_terminal :
    (∀ (io : T1Io) (e : Event), is_error e = true →
      (handle_event io e).inst.fsm_state = .error) ∧
    (∀ (env : Env) (io : T1Io) (apdu : List Nat),
      io.inst.fsm_state = .error → t1_transmit_apdu env io apdu = (false, io)) ∧
    (∀ (env : Env) (io : T1Io) (buf : List Nat),
      io.inst.fsm_state = .error → t1_serial_in env io buf = io) ∧
    (∀ (env : Env) (io : T1Io) (elapsed_ms : Nat),
      io.inst.fsm_state = .error → t1_timer_task env io elapsed_ms = io) := by
  refine ⟨?_, ?_, ?_, ?_⟩
  · intro io e he
    have hne : e.code ≠ .ev_none := by
      intro hc
      rw [is_error, hc] at he
      simp [EvCode.val] at he
    rw [handle_event, if_pos hne, if_pos he]
  · intro env io apdu hfsm
    rw [t1_transmit_apdu, if_neg (fun hC => hC.2 hfsm)]
  · intro env io buf hfsm
    rw [t1_serial_in, if_neg (fun hC => hC.2 hfsm)]
  · intro env io ms hfsm
    rw [t1_timer_task, if_neg (fun hC => hC.1 hfsm)]

/-- A serial-out oracle that always succeeds, for witnesses. -/
def env_true : Env := fun _ => true

/-- A freshly initialized engine world, for witnesses. -/
def io_init : T1Io :=
  { inst := t1_init_inst, ser_calls := 0, trace := [], delivered := [] }

/-- An engine world locked in the `error` state, for witnesses. -/
def io_error_state : T1Io :=
  { io_init with inst := { t1_init_inst with fsm_state := .error } }

/-- Witness for C6 at concrete inputs. -/
theorem C6_error_state_terminal_witness :
    (handle_event io_init (event .err_comm_failure)).inst.fsm_state = .error ∧
    t1_transmit_apdu env_true io_error_state [1, 2] = (false, io_error_state) ∧
    t1_serial_in env_true io_error_state [0x00] = io_error_state ∧
    t1_timer_task env_true io_error_state 50 = io_error_state :=
  ⟨C6_error_state_terminal.1 io_init (event .err_comm_failure) (by decide),
   C6_error_state_terminal.2.1 env_true io_error_state [1, 2] rfl,
   C6_error_state_terminal.2.2.1 env_true io_error_state [0x00] rfl,
   C6_error_state_terminal.2.2.2 env_true io_error_state 50 rfl⟩

/-- **C5.** `handle_bad_block` sets the bad-block flag and then: outside
`resync`, with `attempts+1 < 10` it sends an R-block carrying the given
acknowledgement code and `rx_seq_number` and increments the attempts
counter; with attempts exhausted it emits `comm_failure` if at most one
block was ever transmitted, else resets the counter, enters `resync` and
sends S(RESYNCH).  Inside `resync`, with `attempts+1 < 3` it resends
S(RESYNCH), else it emits `comm_failure`. -/
theorem C5_handle_bad_block (env : Env) (io : T1Io) (btype : BlockType)
    (ack : Nat) :
    (handle_bad_block env io btype ack).2.inst.rx_bad_block = true ∧
    (io.inst.fsm_state ≠ .resync →
      (io.inst.tx_attempts + 1 < DELIVERY_ATTEMPTS →
        (handle_bad_block env io btype ack).2.inst.tx_attempts =
          io.inst.tx_attempts + 1 ∧
        (handle_bad_block env io btype ack).2.trace =
          io.trace ++ [rblock_frame io.inst.config ack io.inst.rx_seq_number]) ∧
      (¬ io.inst.tx_attempts + 1 < DELIVERY_ATTEMPTS → io.inst.tx_block_ctr ≤ 1 →
        (handle_bad_block env io btype ack).1 = event .err_comm_failure ∧
        (handle_bad_block env io btype ack).2.trace = io.trace) ∧
      (¬ io.inst.tx_attempts + 1 < DELIVERY_ATTEMPTS → 1 < io.inst.tx_block_ctr →
        (handle_bad_block env io btype ack).2.inst.tx_attempts = 0 ∧
        (handle_bad_block env io btype ack).2.inst.fsm_state = .resync ∧
        (handle_bad_block env io btype ack).2.trace =
          io.trace ++ [sblock_frame io.inst.config 0 false (-1)])) ∧
    (io.inst.fsm_state = .resync →
      (io.inst.tx_attempts + 1 < RESYNC_ATTEMPTS →
        (handle_bad_block env io btype ack).2.inst.tx_attempts =
          io.inst.tx_attempts + 1 ∧
        (handle_bad_block env io btype ack).2.trace =
          io.trace ++ [sblock_frame io.inst.config 0 false (-1)]) ∧
      (¬ io.inst.tx_attempts + 1 < RESYNC_ATTEMPTS →
        (handle_bad_block env io btype ack).1 = event .err_comm_failure ∧
        (handle_bad_block env io btype ack).2.trace = io.trace)) := by
  rw [handle_bad_block]
  simp only []
  split
  next hfsm =>
    split
    next hatt =>
      refine ⟨?_, fun _ => ⟨fun _ => ⟨?_, ?_⟩, fun hn _ => absurd hatt hn,
        fun hn _ => absurd hatt hn⟩, fun hr => absurd hr hfsm⟩
      · rw [(send_rblock_spec env _ _ _).2.1]
      · rw [(send_rblock_spec env _ _ _).2.2.1]
      · rw [(send_rblock_spec env _ _ _).1]
    next hatt =>
      split
      next hctr =>
        exact ⟨rfl, fun _ => ⟨fun ha => absurd ha hatt, fun _ _ => ⟨rfl, rfl⟩,
          fun _ hc => absurd hctr (by omega)⟩, fun hr => absurd hr hfsm⟩
      next hctr =>
        refine ⟨?_, fun _ => ⟨fun ha => absurd ha hatt, fun _ hc => absurd hc hctr,
          fun _ _ => ⟨?_, ?_, ?_⟩⟩, fun hr => absurd hr hfsm⟩
        · rw [(send_sblock_spec env _ _ _ _).2.1]
        · rw [(send_sblock_spec env _ _ _ _).2.2.1]
        · rw [(send_sblock_spec env _ _ _ _).2.2.2.1]
        · rw [(send_sblock_spec env _ _ _ _).1]
  next hfsm =>
    have hfsm' : io.inst.fsm_state = .resync := by
      by_contra hc
      exact hfsm hc
    split
    next hatt =>
      refine ⟨?_, fun hnr => absurd hfsm' hnr, fun _ => ⟨fun _ => ⟨?_, ?_⟩,
        fun hn => absurd hatt hn⟩⟩
      · rw [(send_sblock_spec env _ _ _ _).2.1]
      · rw [(send_sblock_spec env _ _ _ _).2.2.1]
      · rw [(send_sblock_spec env _ _ _ _).1]
    next hatt =>
      exact ⟨rfl, fun hnr => absurd hfsm' hnr,
        fun _ => ⟨fun ha => absurd ha hatt, fun _ => ⟨rfl, rfl⟩⟩⟩

/-- Witness for C5: a bad block in `wait_response` with a fresh attempts
counter sends R(err_other, 0) and bumps the counter. -/
theorem C5_handle_bad_block_witness :
    (handle_bad_block env_true
      { io_init with inst := { t1_init_inst with fsm_state := .wait_response } }
      .unkn 2).2.inst.rx_bad_block = true ∧
    (handle_bad_block env_true
      { io_init with inst := { t1_init_inst with fsm_state := .wait_response } }
      .unkn 2).2.inst.tx_attempts = 0 + 1 ∧
    (handle_bad_block env_true
      { io_init with inst := { t1_init_inst with fsm_state := .wait_response } }
      .unkn 2).2.trace = [] ++ [rblock_frame default_config 2 0] := by
  have h := C5_handle_bad_block env_true
    { io_init with inst := { t1_init_inst with fsm_state := .wait_response } }
    .unkn 2
  have h2 := (h.2.1 (by decide)).1 (by decide)
  exact ⟨h.1, h2.1, h2.2⟩

theorem save_apdu_data_spec (inst : T1Inst) (inf : List Nat) :
    (save_apdu_data inst inf).2.rx_seq_number = inst.rx_seq_number ∧
    ((if inst.rx_new_apdu then ([] : List Nat) else inst.rx_apdu).length +
        inf.length ≤ T1_MAX_APDU_SIZE →
      (save_apdu_data inst inf).1 = true ∧
      (save_apdu_data inst inf).2.rx_apdu =
        (if inst.rx_new_apdu then [] else inst.rx_apdu) ++ inf) := by
  constructor
  · rw [save_apdu_data]
    cases hnew : inst.rx_new_apdu with
    | true =>
      simp only [hnew, if_true]
      split <;> rfl
    | false =>
      simp only [hnew, Bool.false_eq_true, if_false]
      split <;> rfl
  · intro hfit
    rw [save_apdu_data]
    cases hnew : inst.rx_new_apdu with
    | true =>
      simp only [hnew, if_true] at hfit ⊢
      rw [if_pos (by simpa using hfit)]
      exact ⟨rfl, by simp⟩
    | false =>
      simp only [hnew, Bool.false_eq_true, if_false] at hfit ⊢
      rw [if_pos (by simpa using hfit)]
      exact ⟨rfl, by simp⟩

theorem tx_fifo_remove_last_block_spec (inst : T1Inst) :
    (tx_fifo_remove_last_block inst).rx_seq_number = inst.rx_seq_number ∧
    (tx_fifo_remove_last_block inst).rx_apdu = inst.rx_apdu ∧
    (tx_fifo_remove_last_block inst).rx_new_apdu = inst.rx_new_apdu ∧
    (tx_fifo_remove_last_block inst).config = inst.config ∧
    (tx_fifo_remove_last_block inst).fsm_state = inst.fsm_state := by
  rw [tx_fifo_remove_last_block]
  split <;> simp

/-- **C4.** A valid I-block received in `wait_response` whose N(S) equals
the stored `rx_seq_number` flips `rx_seq_number` (`^= 1`), and — when the
INF bytes fit the APDU reassembly buffer — appends them to it (starting a
fresh buffer when `rx_new_apdu` was pending). -/
theorem C4_handle_iblock_accept (env : Env) (io : T1Io) (seq : Nat)
    (more : Bool) (inf : List Nat)
    (hfsm : io.inst.fsm_state = .wait_response)
    (hseq : seq = io.inst.rx_seq_number) :
    (handle_iblock env io seq more inf).2.inst.rx_seq_number =
      io.inst.rx_seq_number ^^^ 1 ∧
    ((if io.inst.rx_new_apdu then ([] : List Nat) else io.inst.rx_apdu).length +
        inf.length ≤ T1_MAX_APDU_SIZE →
      (handle_iblock env io seq more inf).2.inst.rx_apdu =
        (if io.inst.rx_new_apdu then [] else io.inst.rx_apdu) ++ inf) := by
  rw [handle_iblock, if_pos hfsm]
  simp only []
  rw [if_pos hseq]
  split
  next inst' heq =>
    have hsv := save_apdu_data_spec { io.inst with
      rx_seq_number := io.inst.rx_seq_number ^^^ 1, tmr_response_timeout := 0 } inf
    rw [heq] at hsv
    simp only at hsv
    cases more
    · simp only [Bool.false_eq_true, if_false]
      have hrm := tx_fifo_remove_last_block_spec { inst' with rx_new_apdu := true }
      have hsb := send_block_if_available_spec env
        { io with inst := tx_fifo_remove_last_block { inst' with rx_new_apdu := true } }
      constructor
      · rw [hsb.2.1, hrm.1]
        exact hsv.1
      · intro hfit
        rw [hsb.2.2.1, hrm.2.1]
        exact (hsv.2 hfit).2
    · simp only [if_true]
      have hrb := send_rblock_spec env { io with inst := inst' } 0 inst'.rx_seq_number
      constructor
      · rw [hrb.2.2.2.2.1, hsv.1]
      · intro hfit
        rw [hrb.2.2.2.2.2.1]
        exact (hsv.2 hfit).2
  next inst' heq =>
    have hsv := save_apdu_data_spec { io.inst with
      rx_seq_number := io.inst.rx_seq_number ^^^ 1, tmr_response_timeout := 0 } inf
    rw [heq] at hsv
    simp only at hsv
    refine ⟨hsv.1, fun hfit => ?_⟩
    exact absurd (hsv.2 hfit).1 (by simp)

/-- Witness for C4: in `wait_response` with rx_seq_number = 0, a matching
I-block with two INF bytes flips the sequence bit and stores the bytes. -/
theorem C4_handle_iblock_accept_witness :
    (handle_iblock env_true
      { io_init with inst := { t1_init_inst with fsm_state := .wait_response } }
      0 false [0x90, 0x00]).2.inst.rx_seq_number = 0 ^^^ 1 ∧
    (handle_iblock env_true
      { io_init with inst := { t1_init_inst with fsm_state := .wait_response } }
      0 false [0x90, 0x00]).2.inst.rx_apdu = [] ++ [0x90, 0x00] := by
  have h := C4_handle_iblock_accept env_true
    { io_init with inst := { t1_init_inst with fsm_state := .wait_response } }
    0 false [0x90, 0x00] rfl rfl
  exact ⟨h.1, h.2 (by decide)⟩

/-! ## Claim C1: APDU chaining -/

/-- The INF field of a stored I-block, recovered from its header as the
engine itself does (`hdr.size - prologue_size - edc_size`). -/
def iblock_inf (cfg : T1Config) (b : TxBlock) : List Nat :=
  (b.bytes.drop prologue_size).take (b.size - prologue_size - edc_size cfg)

theorem calc_edc_multi_len (cfg : T1Config) (bufs : List (List Nat)) :
    (calc_edc_multi cfg bufs MAX_EDC_LEN).length = edc_size cfg := by
  rw [calc_edc_multi, edc_size]
  split <;> simp [calc_crc, calc_lrc, CRC_SIZE, LRC_SIZE, MAX_EDC_LEN]

theorem push_block_success (inst : T1Inst) (t : BlockType) (pcb : Nat)
    (inf : List Nat) (more : Bool) (seq : Nat) (inst' : T1Inst)
    (hp : push_block inst t pcb inf more seq = (true, inst')) :
    ∃ B : TxBlock,
      inst'.tx_fifo.blocks = inst.tx_fifo.blocks ++ [B] ∧
      inst'.tx_fifo.capacity = inst.tx_fifo.capacity ∧
      inst'.config = inst.config ∧
      inst'.tx_seq_number = inst.tx_seq_number ∧
      iblock_inf inst.config B = inf ∧
      B.more_data = more := by
  rw [push_block] at hp
  simp only [] at hp
  split at hp
  · split at hp
    next hcond =>
      simp only [Prod.mk.injEq] at hp
      obtain ⟨-, hp⟩ := hp
      subst hp
      have hlen := calc_edc_multi_len inst.config
        [[TX_NAD_VALUE, pcb, inf.length % 256], inf]
      refine ⟨_, rfl, rfl, rfl, rfl, ?_, rfl⟩
      rw [iblock_inf]
      simp only []
      have harith : prologue_size + inf.length +
          (calc_edc_multi inst.config [[TX_NAD_VALUE, pcb, inf.length % 256], inf]
            MAX_EDC_LEN).length - prologue_size - edc_size inst.config =
          inf.length := by
        omega
      rw [harith, List.append_assoc,
        show prologue_size = ([TX_NAD_VALUE, pcb, inf.length % 256] : List Nat).length
          from rfl,
        List.drop_left]
      exact List.take_left ..
    next => simp at hp
  · simp at hp

theorem push_iblock_spec (inst : T1Inst) (inf : List Nat) (more : Bool) :
    (push_iblock inst inf more).1 = true →
    ∃ B : TxBlock,
      (push_iblock inst inf more).2.tx_fifo.blocks =
        inst.tx_fifo.blocks ++ [B] ∧
      (push_iblock inst inf more).2.tx_fifo.capacity = inst.tx_fifo.capacity ∧
      (push_iblock inst inf more).2.config = inst.config ∧
      iblock_inf inst.config B = inf ∧
      B.more_data = more := by
  rw [push_iblock]
  rcases hp : push_block inst .iblk
      ((if inst.tx_seq_number ≠ 0 then IB_NS_BIT else 0) |||
        (if more then IB_M_BIT else 0)) inf more inst.tx_seq_number
    with ⟨ok, i2⟩
  cases ok
  · intro h
    simp at h
  · intro _
    obtain ⟨B, hb1, hb2, hb3, _, hb5, hb6⟩ :=
      push_block_success inst _ _ inf more _ i2 hp
    exact ⟨B, hb1, hb2, hb3, hb5, hb6⟩

theorem push_chain_loop_spec (ifsc : Nat) (hifsc : 1 ≤ ifsc) :
    ∀ (fuel : Nat) (rm : List Nat) (inst : T1Inst), rm.length ≤ fuel →
      (push_chain_loop ifsc fuel inst rm).1 = true →
      ∃ new : List TxBlock,
        (push_chain_loop ifsc fuel inst rm).2.tx_fifo.blocks =
          inst.tx_fifo.blocks ++ new ∧
        (push_chain_loop ifsc fuel inst rm).2.config = inst.config ∧
        (new.map (iblock_inf inst.config)).flatten = rm ∧
        new.length = (rm.length + ifsc - 1) / ifsc ∧
        (rm ≠ [] →
          new.map TxBlock.more_data =
            List.replicate (new.length - 1) true ++ [false]) := by
  intro fuel
  induction fuel with
  | zero =>
    intro rm inst hlen hsucc
    have hrm : rm = [] := List.eq_nil_of_length_eq_zero (by omega)
    subst hrm
    refine ⟨[], by simp [push_chain_loop], by simp [push_chain_loop], by simp, ?_, by simp⟩
    simp only [List.length_nil, Nat.zero_add]
    exact (Nat.div_eq_of_lt (by omega)).symm
  | succ fuel ih =>
    intro rm inst hlen hsucc
    cases rm with
    | nil =>
      refine ⟨[], by simp [push_chain_loop], by simp [push_chain_loop], by simp, ?_, by simp⟩
      simp only [List.length_nil, Nat.zero_add]
      exact (Nat.div_eq_of_lt (by omega)).symm
    | cons x xs =>
      simp only [List.length_cons] at hlen
      revert hsucc
      rw [push_chain_loop]
      case x_3 => intro h; cases h
      rcases hp : push_iblock inst
          ((x :: xs).take (if (x :: xs).length > ifsc then ifsc else (x :: xs).length))
          ((x :: xs).length > ifsc)
        with ⟨ok, i2⟩
      cases ok
      · intro hsucc
        simp at hsucc
      · intro hsucc
        have hps := push_iblock_spec inst
          ((x :: xs).take (if (x :: xs).length > ifsc then ifsc else (x :: xs).length))
          ((x :: xs).length > ifsc) (by rw [hp])
        rw [hp] at hps
        obtain ⟨B, hb1, hb2, hb3, hb4, hb5⟩ := hps
        simp only at hb1 hb2 hb3
        have hdroplen : ((x :: xs).drop
            (if (x :: xs).length > ifsc then ifsc else (x :: xs).length)).length ≤
            fuel := by
          simp only [List.length_drop, List.length_cons]
          split <;> omega
        obtain ⟨new', hn1, hn2, hn3, hn4, hn5⟩ := ih _ i2 hdroplen hsucc
        rw [hb3] at hn3
        refine ⟨B :: new', ?_, ?_, ?_, ?_, ?_⟩
        · rw [hn1, hb1, List.append_assoc, List.singleton_append]
        · rw [hn2, hb3]
        · rw [List.map_cons, List.flatten_cons, hb4, hn3]
          exact List.take_append_drop ..
        · rw [List.length_cons, hn4]
          by_cases hgt : (x :: xs).length > ifsc
          · rw [if_pos hgt]
            simp only [List.length_drop, List.length_cons]
            simp only [List.length_cons] at hgt
            have h1 : xs.length + 1 - ifsc + ifsc - 1 = xs.length := by omega
            have h2 : xs.length + 1 + ifsc - 1 = xs.length + ifsc := by omega
            rw [h1, h2, Nat.add_div_right _ (by omega : 0 < ifsc)]
          · rw [if_neg hgt]
            simp only [List.length_drop, List.length_cons]
            simp only [List.length_cons] at hgt
            have h1 : xs.length + 1 - (xs.length + 1) + ifsc - 1 < ifsc := by omega
            rw [Nat.div_eq_of_lt h1]
            have h2 : (xs.length + 1 + ifsc - 1) / ifsc = 1 := by
              apply Nat.div_eq_of_lt_le <;> omega
            rw [h2]
        · intro _
          by_cases hgt : (x :: xs).length > ifsc
          · have hdne : List.drop
                (if (x :: xs).length > ifsc then ifsc else (x :: xs).length)
                (x :: xs) ≠ [] := by
              rw [if_pos hgt]
              intro hnil
              have h0 := congrArg List.length hnil
              simp only [List.length_drop, List.length_cons, List.length_nil] at h0
              simp only [List.length_cons] at hgt
              omega
            have hmap := hn5 hdne
            have hne2 : new' ≠ [] := by
              intro h0
              rw [h0] at hmap
              simp at hmap
            have hk : 1 ≤ new'.length := by
              rcases new' with _ | _
              · exact absurd rfl hne2
              · simp
            rw [List.map_cons, hmap, hb5,
              show decide ((x :: xs).length > ifsc) = true from by simpa using hgt]
            simp only [List.length_cons]
            have hrep : (true :: (List.replicate (new'.length - 1) true ++ [false])) =
                List.replicate (new'.length - 1 + 1) true ++ [false] := by
              rw [List.replicate_succ, List.cons_append]
            rw [hrep, show new'.length - 1 + 1 = new'.length + 1 - 1 by omega]
          · have hz : new'.length = 0 := by
              rw [hn4, List.length_drop, if_neg hgt]
              exact Nat.div_eq_of_lt (by omega)
            have hnil : new' = [] := List.eq_nil_of_length_eq_zero hz
            subst hnil
            rw [List.map_cons, List.map_nil, hb5,
              show decide ((x :: xs).length > ifsc) = false from by simpa using hgt]
            simp

theorem push_iblock_chain_spec (inst : T1Inst) (apdu : List Nat)
    (hifsc : 1 ≤ inst.config.ifsc) :
    (push_iblock_chain inst apdu).1 = true →
    ∃ new : List TxBlock,
      (push_iblock_chain inst apdu).2.tx_fifo.blocks =
        inst.tx_fifo.blocks ++ new ∧
      (push_iblock_chain inst apdu).2.config = inst.config ∧
      (new.map (iblock_inf inst.config)).flatten = apdu ∧
      new.length = (apdu.length + inst.config.ifsc - 1) / inst.config.ifsc ∧
      (apdu ≠ [] →
        new.map TxBlock.more_data =
          List.replicate (new.length - 1) true ++ [false]) := by
  rw [push_iblock_chain]
  split
  · exact push_chain_loop_spec inst.config.ifsc hifsc apdu.length apdu inst le_rfl
  · intro h
    simp at h

theorem push_iblock_chain_refuse (inst : T1Inst) (apdu : List Nat)
    (h : tx_nfree inst.tx_fifo <
      iblock_chain_size inst.config apdu.length inst.config.ifsc) :
    push_iblock_chain inst apdu = (false, inst) := by
  rw [push_iblock_chain]
  rw [if_neg (fun hc => absurd hc.2 (by omega))]

theorem handle_event_non_error (io : T1Io) (e : Event)
    (he : is_error e = false) : (handle_event io e).inst = io.inst := by
  rw [handle_event]
  split <;> simp [he]

/-- **C1.** For an APDU of length L ≥ 1 and configured IFSC ≥ 1, a
successful `t1_transmit_apdu` appends exactly ⌈L/IFSC⌉ I-blocks to the
TX FIFO whose concatenated INF fields equal the APDU, with the more-data
bit M set on every block except the last; and when the pre-computed chain
size exceeds the TX FIFO's free space the call is refused, leaving the
whole world unchanged. -/
theorem C1_transmit_apdu_chaining (env : Env) (io : T1Io) (apdu : List Nat)
    (hlen : 1 ≤ apdu.length) (hifsc : 1 ≤ io.inst.config.ifsc) :
    ((t1_transmit_apdu env io apdu).1 = true →
      ∃ new : List TxBlock,
        (t1_transmit_apdu env io apdu).2.inst.tx_fifo.blocks =
          io.inst.tx_fifo.blocks ++ new ∧
        new.length =
          (apdu.length + io.inst.config.ifsc - 1) / io.inst.config.ifsc ∧
        (new.map (iblock_inf io.inst.config)).flatten = apdu ∧
        new.map TxBlock.more_data =
          List.replicate (new.length - 1) true ++ [false]) ∧
    (tx_nfree io.inst.tx_fifo <
        iblock_chain_size io.inst.config apdu.length io.inst.config.ifsc →
      t1_transmit_apdu env io apdu = (false, io)) := by
  have hne : apdu ≠ [] := by
    intro h0
    rw [h0] at hlen
    simp at hlen
  constructor
  · intro hsucc
    rw [t1_transmit_apdu] at hsucc ⊢
    by_cases hcond : apdu.length ≠ 0 ∧ io.inst.fsm_state ≠ FsmState.error
    · rw [if_pos hcond] at hsucc ⊢
      rcases hpc : push_iblock_chain io.inst apdu with ⟨ok, inst'⟩
      have hspec := push_iblock_chain_spec io.inst apdu hifsc
      rw [hpc] at hsucc hspec
      cases ok
      · simp at hsucc
      · simp only at hspec
        obtain ⟨new, h1, h2, h3, h4, h5⟩ := hspec trivial
        simp only at hsucc ⊢
        by_cases hidle : inst'.fsm_state = FsmState.idle
        · rw [if_pos hidle] at hsucc ⊢
          rcases hsend : tx_fifo_send_last_block env { io with inst := inst' }
            with ⟨ev, io2⟩
          have hfifo :=
            (tx_fifo_send_last_block_spec env { io with inst := inst' }).1
          rw [hsend] at hsucc hfifo
          simp only at hsucc hfifo ⊢
          have hev : is_error ev = false := by
            simpa using hsucc
          rw [handle_event_non_error _ _ hev]
          exact ⟨new, by rw [hfifo]; exact h1, h4, h3, h5 hne⟩
        · rw [if_neg hidle]
          exact ⟨new, h1, h4, h3, h5 hne⟩
    · rw [if_neg hcond] at hsucc
      simp at hsucc
  · intro hover
    rw [t1_transmit_apdu]
    by_cases hcond : apdu.length ≠ 0 ∧ io.inst.fsm_state ≠ FsmState.error
    · rw [if_pos hcond, push_iblock_chain_refuse io.inst apdu hover]
    · rw [if_neg hcond]

/-- A world in `wait_response` state, for the C1 witness. -/
def io_wait_resp : T1Io :=
  { io_init with inst := { t1_init_inst with fsm_state := .wait_response } }

set_option maxRecDepth 40000 in
/-- Witness for C1: a 5-byte SELECT header APDU succeeds in the
`wait_response` state and is chained into ⌈5/32⌉ = 1 I-block, while a
1000-byte APDU (chain size 1128 > 1023 free bytes) is refused with the
world unchanged. -/
theorem C1_transmit_apdu_chaining_witness :
    (∃ new : List TxBlock,
      (t1_transmit_apdu env_true io_wait_resp
          [0x00, 0xA4, 0x04, 0x00, 0x00]).2.inst.tx_fifo.blocks =
        io_wait_resp.inst.tx_fifo.blocks ++ new ∧
      new.length =
        (([0x00, 0xA4, 0x04, 0x00, 0x00] : List Nat).length +
          io_wait_resp.inst.config.ifsc - 1) / io_wait_resp.inst.config.ifsc ∧
      (new.map (iblock_inf io_wait_resp.inst.config)).flatten =
        [0x00, 0xA4, 0x04, 0x00, 0x00] ∧
      new.map TxBlock.more_data =
        List.replicate (new.length - 1) true ++ [false]) ∧
    t1_transmit_apdu env_true io_init (List.replicate 1000 0) =
      (false, io_init) :=
  ⟨(C1_transmit_apdu_chaining env_true io_wait_resp
      [0x00, 0xA4, 0x04, 0x00, 0x00] (by decide) (by decide)).1 (by decide),
   (C1_transmit_apdu_chaining env_true io_init (List.replicate 1000 0)
      (by simp) (by decide)).2 (by decide)⟩

end T1
